import Mathlib

/-!
PetConnect backend: authentication, lockout, session guard, chat, news and posts.

A shallow embedding of

* `backend/models/User.js`: the `isLocked` virtual, `incLoginAttempts`,
  `resetLoginAttempts`, the static `findByCredentials`, the schema validators,
  the pre-save hook and `getResetPasswordToken`;
* `backend/middleware/auth.js`: `protect`, `authorize`, `optionalAuth`;
* `backend/controllers/authController.js`: `register`, `login`, `getMe`,
  `forgotPassword`, `resetPassword`;
* `backend/routes/auth.js`, `backend/server.js`, `backend/middleware/rateLimiter.js`:
  the sanitizers and the limiters in front of the auth routes;
* `backend/controllers/chatController.js`, `backend/models/Chat.js`,
  `backend/routes/chat.js`: the emergency checks, `generateDemoResponse`,
  `generateIntelligentResponse`, `handleChat`, `saveChatMessage`,
  `getChatSession`, `clearChatSession` and the pre-save hook of a chat;
* `backend/models/News.js`: the slug of the pre-save hook;
* `backend/routes/posts.js`: `createPost` and `getPost`.

Conventions of the embedding.

* The user collection is a list of documents; `findOne` returns the first
  document that satisfies the filter, `updateOne` rewrites the first document
  with the given `_id`.  Store operations are total (no I/O failure).
* Timestamps are milliseconds since the epoch (`Date.now()`); one call of a
  method reads the clock as one instant `now`.
* `bcrypt.compare`, `bcrypt.hash`, `jwt.verify`, `jwt.sign`, the SHA-256 digest,
  `crypto.randomBytes` and `normalizeEmail` are external libraries and appear
  as parameters.
* `String.prototype.toLowerCase` is a parameter of the chat functions, which
  lowercase whole messages; `jsToLowerCase` lowercases the ASCII letters only
  and stands for it at the sample messages, which are ASCII.
* Stored documents satisfy the schema on the paths a `save` does not modify.
-/

namespace PetConnect

/-! ## Strings as JavaScript sees them -/

/-- Splitting a character list at every occurrence of a separator character:
`s.split(sep)` for a one-character separator. -/
def splitChars (sep : Char) : List Char → List (List Char)
  | [] => [[]]
  | c :: cs =>
    if c = sep then [] :: splitChars sep cs
    else
      match splitChars sep cs with
      | [] => [[c]]
      | p :: ps => (c :: p) :: ps

/-- The JavaScript `s.split(sep)` for a one-character separator. -/
def jsSplit (s : String) (sep : Char) : List String :=
  (splitChars sep s.data).map String.mk

/-- The JavaScript `s.startsWith(p)`. -/
def jsStartsWith (s p : String) : Bool :=
  p.data.isPrefixOf s.data

/-- The white space and line terminators of ECMAScript, which
`String.prototype.trim` removes and the class `\s` matches: tab, line feed,
vertical tab, form feed, carriage return, space, the no-break space, U+1680,
U+2000 to U+200A, U+2028, U+2029, U+202F, U+205F, U+3000 and U+FEFF. -/
def isJsSpace (c : Char) : Bool :=
  c = ' ' || c = '\t' || c = '\n' || c = '\r' || c.toNat = 11 || c.toNat = 12 || c.toNat = 160 ||
    c.toNat = 5760 || (decide (8192 ≤ c.toNat) && decide (c.toNat ≤ 8202)) ||
    c.toNat = 8232 || c.toNat = 8233 || c.toNat = 8239 || c.toNat = 8287 ||
    c.toNat = 12288 || c.toNat = 65279

/-- The JavaScript `s.trim()`. -/
def jsTrim (s : String) : String :=
  String.mk ((s.data.dropWhile isJsSpace).reverse.dropWhile isJsSpace).reverse

/-- The JavaScript `s.toLowerCase()` on the ASCII letters; other characters are
kept. -/
def jsToLowerCase (s : String) : String :=
  String.mk (s.data.map Char.toLower)

/-- JavaScript truthiness of an optional string: `undefined` and the empty
string are falsy. -/
def truthy : Option String → Bool
  | none => false
  | some s => s != ""

/-! ## The data model (`userSchema`) -/

/-- Milliseconds since the epoch. -/
abbrev Time := Int

/-- The lockout fields of `userSchema.security` as stored: a field is `none`
when the stored document does not have it (after `$unset`). -/
structure Security where
  loginAttempts : Option Nat := none
  lockUntil : Option Time := none
  deriving DecidableEq

/-- A document of the user collection, with the fields the authentication
code reads or writes (`passwordChangedAt` is `security.passwordChangedAt`). -/
structure User where
  _id : Nat
  name : String := ""
  username : Option String := none
  email : String
  password : String
  role : String := "owner"
  isActive : Bool := true
  lastActive : Time := 0
  security : Security := {}
  resetPasswordToken : Option String := none
  resetPasswordExpire : Option Time := none
  passwordChangedAt : Option Time := none
  deriving DecidableEq

/-- The value of `this.security.loginAttempts` on a loaded document: the
schema default `0` stands in for a missing field. -/
def User.loginAttempts (u : User) : Nat :=
  u.security.loginAttempts.getD 0

/-- The virtual `isLocked`:
`!!(this.security.lockUntil && this.security.lockUntil > Date.now())`. -/
def User.isLocked (u : User) (now : Time) : Bool :=
  match u.security.lockUntil with
  | none => false
  | some l => decide (l > now)

/-! ## Update documents -/

/-- The update operators the model uses on the two lockout fields. -/
structure Update where
  incLoginAttempts : Option Nat := none
  setLoginAttempts : Option Nat := none
  setLockUntil : Option Time := none
  unsetLoginAttempts : Bool := false
  unsetLockUntil : Bool := false
  deriving DecidableEq

/-- The effect of an update document on the stored lockout fields: `$inc`
adds to the stored number (a missing field counts as 0), `$set` overwrites,
`$unset` removes. -/
def Update.applySecurity (upd : Update) (s : Security) : Security :=
  let attempts₁ :=
    match upd.incLoginAttempts with
    | none => s.loginAttempts
    | some k => some (s.loginAttempts.getD 0 + k)
  let attempts₂ :=
    match upd.setLoginAttempts with
    | none => attempts₁
    | some v => some v
  let attempts₃ := if upd.unsetLoginAttempts then none else attempts₂
  let lock₁ :=
    match upd.setLockUntil with
    | none => s.lockUntil
    | some t => some t
  let lock₂ := if upd.unsetLockUntil then none else lock₁
  { loginAttempts := attempts₃, lockUntil := lock₂ }

/-- An update document applied to a stored user document. -/
def Update.apply (upd : Update) (u : User) : User :=
  { u with security := upd.applySecurity u.security }

/-- The first test of `incLoginAttempts`:
`this.security.lockUntil && this.security.lockUntil < Date.now()`. -/
def User.lockExpired (u : User) (now : Time) : Bool :=
  match u.security.lockUntil with
  | none => false
  | some l => decide (l < now)

/-- The update issued by `incLoginAttempts` at time `now`. -/
def User.incLoginAttempts (u : User) (now : Time) : Update :=
  if u.lockExpired now then
    { unsetLockUntil := true, setLoginAttempts := some 1 }
  else
    let updates : Update := { incLoginAttempts := some 1 }
    if u.loginAttempts + 1 ≥ 5 && !u.isLocked now then
      { updates with setLockUntil := some (now + 2 * 60 * 60 * 1000) }
    else
      updates

/-- The update issued by `resetLoginAttempts`. -/
def User.resetLoginAttempts (_u : User) : Update :=
  { unsetLoginAttempts := true, unsetLockUntil := true }

/-! ## The user collection -/

/-- The user collection. -/
abbrev Db := List User

/-- Rewriting the first document with the given `_id`; the collection is
unchanged when there is none. -/
def Db.modifyById (db : Db) (id : Nat) (f : User → User) : Db :=
  match db with
  | [] => []
  | u :: rest =>
    if u._id = id then f u :: rest else u :: Db.modifyById rest id f

/-- The query `doc.updateOne(upd)`: the update document applied to the stored
document with the `_id` of `doc`. -/
def Db.updateOne (db : Db) (id : Nat) (upd : Update) : Db :=
  db.modifyById id upd.apply

/-- The write made by `user.save()` after `user.lastActive = new Date()`: only
the modified path `lastActive` is written. -/
def Db.saveLastActive (db : Db) (id : Nat) (now : Time) : Db :=
  db.modifyById id (fun u => { u with lastActive := now })

/-- The query `User.findById(id)`. -/
def Db.findById (db : Db) (id : Nat) : Option User :=
  db.find? (fun u => u._id == id)

/-- The query `User.findOne({ email })`. -/
def Db.findByEmail (db : Db) (email : String) : Option User :=
  db.find? (fun u => u.email == email)

/-- The query `User.findOne({ email, isActive: true })`. -/
def Db.findActiveByEmail (db : Db) (email : String) : Option User :=
  db.find? (fun u => u.email == email && u.isActive)

/-- The `_id` index: no two stored documents share an `_id`. -/
def Db.uniqueIds (db : Db) : Prop :=
  (db.map User._id).Nodup

instance (db : Db) : Decidable db.uniqueIds :=
  inferInstanceAs (Decidable (db.map User._id).Nodup)

/-! ## `User.findByCredentials` -/

/-- The observable steps of `findByCredentials` after the lookup. -/
inductive Effect where
  | comparePassword
  | updateOne (id : Nat) (upd : Update)
  | save (id : Nat)
  deriving DecidableEq

/-- The error messages thrown by `findByCredentials`. -/
def invalidCredentials : String := "Invalid credentials"

/-- The message of the error thrown for a locked account. -/
def accountLocked : String :=
  "Account is temporarily locked due to too many failed login attempts"

/-- What a call of `findByCredentials` leaves behind: the returned document or
the message of the thrown error, the collection afterwards, and the steps
taken in order. -/
structure CredentialsResult where
  outcome : Except String User
  db : Db
  effects : List Effect

/-- The static `User.findByCredentials(email, password)` run at time `now`
against the collection `db`; `bcryptCompare candidate hash` is
`bcrypt.compare`. -/
def findByCredentials (bcryptCompare : String → String → Bool)
    (db : Db) (email password : String) (now : Time) : CredentialsResult :=
  match db.findActiveByEmail email with
  | none => { outcome := .error invalidCredentials, db := db, effects := [] }
  | some user =>
    if user.isLocked now then
      { outcome := .error accountLocked, db := db, effects := [] }
    else if !bcryptCompare password user.password then
      let upd := user.incLoginAttempts now
      { outcome := .error invalidCredentials
        db := db.updateOne user._id upd
        effects := [.comparePassword, .updateOne user._id upd] }
    else
      let reset := decide (user.loginAttempts > 0)
      let db₁ := if reset then db.updateOne user._id user.resetLoginAttempts else db
      let user₁ := { user with lastActive := now }
      { outcome := .ok user₁
        db := db₁.saveLastActive user._id now
        effects :=
          [.comparePassword] ++
          (if reset then [.updateOne user._id user.resetLoginAttempts] else []) ++
          [.save user._id] }

/-- The stored form of an account after a call: the document with its `_id`. -/
def CredentialsResult.stored (r : CredentialsResult) (id : Nat) : Option User :=
  r.db.findById id

/-! ## The session guard (`middleware/auth.js`) -/

/-- The object `req.cookies` as far as the guard reads it. -/
structure Cookies where
  token : Option String := none
  deriving DecidableEq

/-- The parts of an Express request the guard reads or writes:
`req.headers.authorization`, `req.cookies` and `req.user`. -/
structure Request where
  authorization : Option String := none
  cookies : Option Cookies := none
  user : Option User := none
  deriving DecidableEq

/-- The response `res.status(status).json({ success: false, message })`. -/
structure Reply where
  status : Nat
  message : String
  deriving DecidableEq

/-- What a middleware leaves behind: the response it sent (if any), whether it
called `next`, the request object and the collection afterwards. -/
structure GuardResult where
  response : Option Reply
  nextCalled : Bool
  req : Request
  db : Db

/-- The token from the header: when `req.headers.authorization` is set and
starts with `Bearer`, the second element of `authorization.split(' ')`
(`undefined` when there is none). -/
def headerToken (req : Request) : Option String :=
  match req.authorization with
  | none => none
  | some a =>
    if a != "" && jsStartsWith a "Bearer" then (jsSplit a ' ').get? 1 else none

/-- The token extraction shared by `protect` and `optionalAuth`: the header
token, and when that is falsy the `token` cookie if `req.cookies` and
`req.cookies.token` are truthy. -/
def extractToken (req : Request) : Option String :=
  let token := headerToken req
  if !truthy token then
    match req.cookies with
    | none => token
    | some c => if truthy c.token then c.token else token
  else token

/-- The middleware `protect` run at time `now`; `jwtVerify token` is the `id`
of the payload returned by `jwt.verify(token, process.env.JWT_SECRET)`, or `none`
when `jwt.verify` throws. -/
def protect (jwtVerify : String → Option Nat) (db : Db) (now : Time)
    (req : Request) : GuardResult :=
  let token := extractToken req
  if !truthy token then
    { response := some ⟨401, "Access denied. No token provided."⟩
      nextCalled := false, req := req, db := db }
  else
    match token.bind jwtVerify with
    | none =>
      { response := some ⟨401, "Access denied. Invalid token."⟩
        nextCalled := false, req := req, db := db }
    | some id =>
      match db.findById id with
      | none =>
        { response := some ⟨401, "Access denied. User not found."⟩
          nextCalled := false, req := req, db := db }
      | some user =>
        if !user.isActive then
          { response := some ⟨401, "Access denied. Account is deactivated."⟩
            nextCalled := false, req := req, db := db }
        else
          let user₁ := { user with lastActive := now }
          { response := none
            nextCalled := true
            req := { req with user := some user₁ }
            db := db.saveLastActive user._id now }

/-- The middleware returned by `authorize(...roles)`. -/
def authorize (roles : List String) (db : Db) (req : Request) : GuardResult :=
  match req.user with
  | none =>
    { response := some ⟨401, "Access denied. Please log in."⟩
      nextCalled := false, req := req, db := db }
  | some user =>
    if !roles.contains user.role then
      { response :=
          some ⟨403, "Access denied. Required role(s): " ++ String.intercalate ", " roles⟩
        nextCalled := false, req := req, db := db }
    else
      { response := none, nextCalled := true, req := req, db := db }

/-- The middleware `optionalAuth`. -/
def optionalAuth (jwtVerify : String → Option Nat) (db : Db) (req : Request) : GuardResult :=
  let token := extractToken req
  let req₁ :=
    if truthy token then
      match token.bind jwtVerify with
      | none => req
      | some id =>
        match db.findById id with
        | none => req
        | some user => if user.isActive then { req with user := some user } else req
    else req
  { response := none, nextCalled := true, req := req₁, db := db }

/-! ## The `login` controller (`controllers/authController.js`) -/

/-- The body of a login request after the route's validators ran. -/
structure LoginBody where
  email : Option String := none
  password : Option String := none

/-- The JSON response of `login`: the status, `success`, `message`, the
issued token and the account the `user` object describes (on success). -/
structure LoginReply where
  status : Nat
  success : Bool
  message : String
  token : Option String := none
  user : Option User := none
  deriving DecidableEq

/-- The controller `login` run at time `now`: `validationErrors` is
`validationResult(req).array()`, `generateToken id` is
`jwt.sign({ id }, process.env.JWT_SECRET, ...)`. -/
def login (bcryptCompare : String → String → Bool) (generateToken : Nat → String)
    (db : Db) (now : Time) (validationErrors : List String) (body : LoginBody) :
    LoginReply × Db :=
  if !validationErrors.isEmpty then
    ({ status := 400, success := false, message := "Validation errors" }, db)
  else if !truthy body.email || !truthy body.password then
    ({ status := 400, success := false, message := "Email and password are required" }, db)
  else
    let email := body.email.getD ""
    let password := body.password.getD ""
    match db.findByEmail (jsTrim (jsToLowerCase email)) with
    | none =>
      ({ status := 401, success := false, message := "Invalid credentials - user not found" }, db)
    | some user =>
      if !bcryptCompare password user.password then
        ({ status := 401, success := false, message := "Invalid credentials" }, db)
      else
        let user₁ := { user with lastActive := now }
        ({ status := 200, success := true, message := "Login successful"
           token := some (generateToken user._id), user := some user₁ },
         db.saveLastActive user._id now)

/-! ## Schema validation (`userSchema`) -/

/-- The JavaScript `s.length`: the number of UTF-16 code units. -/
def jsLength (s : String) : Nat :=
  (s.data.map (fun c => if c.toNat ≥ 65536 then 2 else 1)).sum

/-- The class `\w` of a JavaScript regular expression. -/
def isWordChar (c : Char) : Bool :=
  c.isAlphanum || c = '_'

/-- Matching the rest of a string against `([.-]?\w+)*$`, given whether the
previous character was a separator (or the start of the string). -/
def dottedWordsFrom : Bool → List Char → Bool
  | afterSep, [] => !afterSep
  | afterSep, c :: cs =>
    if isWordChar c then dottedWordsFrom false cs
    else if (c = '.' || c = '-') && !afterSep then dottedWordsFrom true cs
    else false

/-- The pattern `^\w+([.-]?\w+)*$`: words joined by single dots or hyphens. -/
def dottedWords (cs : List Char) : Bool :=
  dottedWordsFrom true cs

/-- The part of a character list after its last dot, and the part before that
dot; `none` when there is no dot. -/
def splitLastDot (cs : List Char) : Option (List Char × List Char) :=
  match (cs.reverse.span (fun c => c != '.')) with
  | (_, []) => none
  | (tailRev, _ :: headRev) => some (headRev.reverse, tailRev.reverse)

/-- The pattern `^\w+([.-]?\w+)*(\.\w{2,3})+$` of the part after the `@`: the
last label has two or three word characters and what precedes its dot is
words joined by single dots or hyphens. -/
def domainPattern (cs : List Char) : Bool :=
  match splitLastDot cs with
  | none => false
  | some (front, last) =>
    dottedWords front && last.all isWordChar && decide (2 ≤ last.length) &&
      decide (last.length ≤ 3)

/-- The `match` pattern of `userSchema.email`:
`/^\w+([.-]?\w+)*@\w+([.-]?\w+)*(\.\w{2,3})+$/`. -/
def emailPattern (s : String) : Bool :=
  match s.data.span (fun c => c != '@') with
  | (_, []) => false
  | (loc, _ :: dom) => dottedWords loc && domainPattern dom

/-- The `match` pattern of `userSchema.phone`: `/^[\+]?[1-9][\d]{0,15}$/`. -/
def phonePattern (s : String) : Bool :=
  let digits := match s.data with
    | '+' :: rest => rest
    | cs => cs
  match digits with
  | [] => false
  | d :: rest =>
    d.isDigit && d != '0' && rest.all Char.isDigit && decide (rest.length ≤ 15)

/-- The `enum` of `userSchema.role`. -/
def roleEnum : List String := ["owner", "veterinarian", "shelter", "admin"]

/-- The fields `register` passes to `User.create`. -/
structure NewUser where
  name : String
  username : String
  email : String
  password : String
  role : String
  phone : String

/-- The schema setters applied when the document is built: `trim` on `name` and
`username`, `lowercase` on `email`. -/
def NewUser.applySetters (d : NewUser) : NewUser :=
  { d with name := jsTrim d.name, username := jsTrim d.username,
           email := jsToLowerCase d.email }

/-- The schema validators on the fields of a new document; the result is the
first failing message, `none` when the document is valid.  An empty `phone`
passes its `match` validator. -/
def NewUser.validate (d : NewUser) : Option String :=
  if d.name = "" then some "Name is required"
  else if jsLength d.name < 2 then some "Name must be at least 2 characters"
  else if jsLength d.name > 50 then some "Name cannot exceed 50 characters"
  else if jsLength d.username < 3 then some "Username must be at least 3 characters"
  else if jsLength d.username > 30 then some "Username cannot exceed 30 characters"
  else if d.email = "" then some "Email is required"
  else if !emailPattern d.email then some "Please provide a valid email"
  else if d.password = "" then some "Password is required"
  else if jsLength d.password < 3 then some "Password must be at least 3 characters"
  else if !roleEnum.contains d.role then some "role is not a valid enum value"
  else if d.phone != "" && !phonePattern d.phone then some "Please provide a valid phone number"
  else none

/-! ## Saving documents (`userSchema.pre('save')`) -/

/-- A document in memory: its field values, whether it is new, and which of
the paths the controllers assign are marked modified. -/
structure Doc where
  user : User
  isNew : Bool := false
  passwordModified : Bool := false
  lastActiveModified : Bool := false
  resetModified : Bool := false

/-- The first pre-save hook, run at time `now`: when `password` is modified it
becomes `bcrypt.hash(password, 12)`, and on a document that is not new
`security.passwordChangedAt` becomes `Date.now() - 1000`. -/
def preSavePassword (bcryptHash : String → Nat → String) (now : Time) (d : Doc) : Doc :=
  if !d.passwordModified then d
  else
    let d₁ := { d with user := { d.user with password := bcryptHash d.user.password 12 } }
    if !d.isNew then
      { d₁ with user := { d₁.user with passwordChangedAt := some (now - 1000) } }
    else d₁

/-- The write of the modified paths of a document onto its stored form. -/
def Doc.writeTo (d : Doc) (stored : User) : User :=
  { stored with
    password := if d.passwordModified then d.user.password else stored.password
    passwordChangedAt :=
      if d.passwordModified then d.user.passwordChangedAt else stored.passwordChangedAt
    lastActive := if d.lastActiveModified then d.user.lastActive else stored.lastActive
    resetPasswordToken :=
      if d.resetModified then d.user.resetPasswordToken else stored.resetPasswordToken
    resetPasswordExpire :=
      if d.resetModified then d.user.resetPasswordExpire else stored.resetPasswordExpire }

/-- The call `doc.save()` at time `now` once validation has passed: the
pre-save hook runs, then a new document is inserted and an existing one has
its modified paths written. -/
def Db.save (bcryptHash : String → Nat → String) (now : Time) (db : Db) (d : Doc) : Db :=
  let d₁ := preSavePassword bcryptHash now d
  if d.isNew then db ++ [d₁.user]
  else db.modifyById d.user._id d₁.writeTo

/-- A fresh `_id` for a new document: larger than every stored one. -/
def Db.freshId (db : Db) : Nat :=
  (db.map User._id).foldr max 0 + 1

/-- The call `User.create(fields)` at time `now`: setters, validators, the
pre-save hook and the insert, which the unique indexes on `email` and
`username` reject for a value already stored.  The result is the stored
document and the collection, or the message of the thrown error. -/
def User.create (bcryptHash : String → Nat → String) (now : Time) (db : Db) (fields : NewUser) :
    Except String (User × Db) :=
  let d := fields.applySetters
  match d.validate with
  | some msg => .error ("User validation failed: " ++ msg)
  | none =>
    if db.any (fun u => u.email == d.email) then .error "E11000 duplicate key error: email"
    else if db.any (fun u => u.username == some d.username) then
      .error "E11000 duplicate key error: username"
    else
      let doc : Doc :=
        { user :=
            { _id := db.freshId, name := d.name, username := some d.username, email := d.email,
              password := d.password, role := d.role, isActive := true, lastActive := now,
              security := { loginAttempts := some 0 } }
          isNew := true, passwordModified := true, lastActiveModified := true }
      let db₁ := Db.save bcryptHash now db doc
      .ok ((preSavePassword bcryptHash now doc).user, db₁)

/-! ## The `register` controller -/

/-- The body of a register request. -/
structure RegisterBody where
  name : Option String := none
  email : Option String := none
  password : Option String := none
  role : Option String := none
  phone : Option String := none

/-- The JavaScript `Date.now().toString().slice(-4)`. -/
def lastFourOfNow (now : Time) : String :=
  let digits := (toString now).data
  String.mk (digits.drop (digits.length - 4))

/-- The username `register` builds:
`email.toLowerCase().split('@')[0] + '_' + Date.now().toString().slice(-4)`. -/
def registerUsername (email : String) (now : Time) : String :=
  (jsSplit (jsToLowerCase email) '@').headD "" ++ "_" ++ lastFourOfNow now

/-- The controller `register` run at time `now`; `bcryptHash` is `bcrypt.hash`
and `generateToken` is `jwt.sign`.  A request without `location` (the
controller then stores the default point). -/
def register (bcryptHash : String → Nat → String) (generateToken : Nat → String)
    (db : Db) (now : Time) (body : RegisterBody) : LoginReply × Db :=
  if !truthy body.name || !truthy body.email || !truthy body.password then
    ({ status := 400, success := false, message := "Name, email and password are required" }, db)
  else
    let name := body.name.getD ""
    let email := body.email.getD ""
    let password := body.password.getD ""
    if jsLength password < 3 then
      ({ status := 400, success := false, message := "Password must be at least 3 characters" },
       db)
    else
      match db.findByEmail (jsToLowerCase email) with
      | some _ =>
        ({ status := 400, success := false, message := "User already exists with this email" },
         db)
      | none =>
        let fields : NewUser :=
          { name := jsTrim name
            username := registerUsername email now
            email := jsTrim (jsToLowerCase email)
            password := password
            role := if truthy body.role then body.role.getD "" else "owner"
            phone := if truthy body.phone then body.phone.getD "" else "" }
        match User.create bcryptHash now db fields with
        | .error _ =>
          ({ status := 500, success := false, message := "Server error during registration" },
           db)
        | .ok (user, db₁) =>
          ({ status := 201, success := true, message := "User registered successfully"
             token := some (generateToken user._id), user := some user },
           db₁)

/-- The sanitizers of `registerValidation`, which rewrite the body before the
controller runs: `trim` on `name` and `normalizeEmail` on `email` (a function
of the validator library, `none` when it returns `false`).  The validators of
the chain only record errors on the request. -/
def registerSanitize (normalizeEmail : String → Option String) (body : RegisterBody) :
    RegisterBody :=
  { body with name := body.name.map jsTrim, email := body.email.bind normalizeEmail }

/-- The route `router.post('/register', registerValidation, register)`: the
controller does not read the recorded validation errors. -/
def postRegister (normalizeEmail : String → Option String)
    (bcryptHash : String → Nat → String) (generateToken : Nat → String)
    (db : Db) (now : Time) (body : RegisterBody) : LoginReply × Db :=
  register bcryptHash generateToken db now (registerSanitize normalizeEmail body)

/-! ## The password reset flow (`forgotPassword`, `resetPassword`) and `getMe` -/

/-- What an `async` handler did: it sent a response, or it threw, so that its
promise was rejected and the handler itself sent nothing. -/
inductive Handled (α : Type) where
  | responded (reply : α)
  | threw (error : String)
  deriving DecidableEq

/-- The JSON response of `forgotPassword`. -/
structure ForgotReply where
  status : Nat
  success : Bool
  message : String
  resetToken : Option String := none
  deriving DecidableEq

/-- Store failures injected into one request: the lookup throws, the save
throws. -/
structure Faults where
  lookup : Bool := false
  save : Bool := false

/-- The method `getResetPasswordToken` at time `now`: `randomHex` is
`crypto.randomBytes(20).toString('hex')` and `sha256` the hex digest of
`crypto.createHash('sha256')`.  It returns the plain token and sets the two
reset fields of the document. -/
def getResetPasswordToken (sha256 : String → String) (randomHex : String) (now : Time)
    (d : Doc) : String × Doc :=
  (randomHex,
   { d with
     user := { d.user with
       resetPasswordToken := some (sha256 randomHex)
       resetPasswordExpire := some (now + 10 * 60 * 1000) }
     resetModified := true })

/-- The `catch` block of `forgotPassword`.  Its first statement is `if (user)`,
but `user` is a `const` of the `try` block and not in scope here: reading it
throws a `ReferenceError` before anything is cleared or sent. -/
def forgotPasswordCatch : Handled ForgotReply :=
  .threw "ReferenceError: user is not defined"

/-- The controller `forgotPassword` run at time `now` with the body's `email`. -/
def forgotPassword (sha256 : String → String) (bcryptHash : String → Nat → String)
    (randomHex : String) (faults : Faults) (db : Db) (now : Time) (email : Option String) :
    Handled ForgotReply × Db :=
  match email with
  | none => (forgotPasswordCatch, db)
  | some e =>
    if faults.lookup then (forgotPasswordCatch, db)
    else
      match db.findByEmail (jsToLowerCase e) with
      | none =>
        (.responded { status := 404, success := false, message := "User not found with this email" },
         db)
      | some user =>
        let (resetToken, doc) := getResetPasswordToken sha256 randomHex now { user := user }
        if faults.save then (forgotPasswordCatch, db)
        else
          (.responded { status := 200, success := true, message := "Password reset email sent"
                        resetToken := some resetToken },
           Db.save bcryptHash now db doc)

/-- The filter `{ resetPasswordToken, resetPasswordExpire: { $gt: Date.now() } }`. -/
def resetFilter (hash : String) (now : Time) (u : User) : Bool :=
  u.resetPasswordToken == some hash &&
    (match u.resetPasswordExpire with
     | none => false
     | some e => decide (e > now))

/-- The validators `save()` runs on the assigned `password`: `required` and
`minlength: 3`. -/
def passwordValid (password : Option String) : Bool :=
  match password with
  | none => false
  | some p => p != "" && decide (3 ≤ jsLength p)

/-- The document `resetPassword` saves: the found account with
`user.password = password`, `user.resetPasswordToken = undefined` and
`user.resetPasswordExpire = undefined` assigned. -/
def resetDoc (user : User) (password : String) : Doc :=
  { user := { user with password := password
                        resetPasswordToken := none, resetPasswordExpire := none }
    passwordModified := true, resetModified := true }

/-- The controller `resetPassword` run at time `now`: `resettoken` is the route
parameter, `password` the body's field. -/
def resetPassword (sha256 : String → String) (bcryptHash : String → Nat → String)
    (generateToken : Nat → String) (db : Db) (now : Time) (resettoken : String)
    (password : Option String) : LoginReply × Db :=
  match db.find? (resetFilter (sha256 resettoken) now) with
  | none =>
    ({ status := 400, success := false, message := "Invalid or expired reset token" }, db)
  | some user =>
    if !passwordValid password then
      ({ status := 500, success := false, message := "Server error resetting password" }, db)
    else
      let doc := resetDoc user (password.getD "")
      ({ status := 200, success := true, message := "Password reset successful"
         token := some (generateToken user._id)
         user := some (preSavePassword bcryptHash now doc).user },
       Db.save bcryptHash now db doc)

/-- The controller `getMe`; without `req.user` the read of `req.user.id` throws
and the `catch` block answers 500. -/
def getMe (db : Db) (req : Request) : LoginReply :=
  match req.user with
  | none => { status := 500, success := false, message := "Server error fetching user data" }
  | some attached =>
    match db.findById attached._id with
    | none => { status := 404, success := false, message := "User not found" }
    | some user => { status := 200, success := true, message := "", user := some user }

/-! ## Rate limiting (`middleware/rateLimiter.js`, `server.js`, `routes/auth.js`) -/

/-- The options of a `rateLimit({...})` instance. -/
structure Limiter where
  windowMs : Nat
  max : Nat
  message : String
  deriving DecidableEq

/-- The limiter `generalLimiter`. -/
def generalLimiter : Limiter :=
  { windowMs := 15 * 60 * 1000, max := 100
    message := "Too many requests from this IP, please try again later." }

/-- The limiter `authLimiter`. -/
def authLimiter : Limiter :=
  { windowMs := 15 * 60 * 1000, max := 10
    message := "Too many authentication attempts, please try again later." }

/-- The counter of a limiter for one client key: the hits in the current
window and the time the window ends. -/
structure Window where
  hits : Nat := 0
  resetTime : Time := 0
  deriving DecidableEq

/-- One request of a client at time `now` counted by a limiter, as the rate
limiting library does it: a window that has ended is restarted, the hit is
counted, and the request is let through when the count does not exceed `max`. -/
def Limiter.hit (l : Limiter) (w : Window) (now : Time) : Bool × Window :=
  let w₁ : Window := if w.resetTime ≤ now then { hits := 0, resetTime := now + l.windowMs } else w
  let w₂ : Window := { w₁ with hits := w₁.hits + 1 }
  (decide (w₂.hits ≤ l.max), w₂)

/-- The limiters in front of the handlers of `/api/auth/register`, `/login`,
`/forgot-password` and `/reset-password/:resettoken`, in order: `server.js`
mounts `generalLimiter` on `/api`, and `routes/auth.js` mounts none. -/
def authRouteLimiters : List Limiter := [generalLimiter]

/-- A request of one client passed through a list of limiters, each with its
window for that client: the message of the first limiter that rejects it
(answered with 429), and the windows afterwards. -/
def passLimiters : List (Limiter × Window) → Time → Option String × List (Limiter × Window)
  | [], _ => (none, [])
  | (l, w) :: rest, now =>
    match l.hit w now with
    | (false, w₁) => (some l.message, (l, w₁) :: rest)
    | (true, w₁) =>
      match passLimiters rest now with
      | (r, rest₁) => (r, (l, w₁) :: rest₁)

/-- The state one client sees: the collection and the client's windows. -/
structure Server where
  db : Db
  windows : List (Limiter × Window)

/-- A server whose limiters are those of the auth routes, with fresh windows. -/
def Server.start (db : Db) : Server :=
  { db := db, windows := authRouteLimiters.map (fun l => (l, {})) }

/-- A request `POST /api/auth/login` of one client at time `now`: the limiters
in front of the route, then the validators (which report no error here) and
the controller. -/
def postLogin (bcryptCompare : String → String → Bool) (generateToken : Nat → String)
    (sv : Server) (now : Time) (body : LoginBody) : LoginReply × Server :=
  match passLimiters sv.windows now with
  | (some msg, ws) => ({ status := 429, success := false, message := msg }, { sv with windows := ws })
  | (none, ws) =>
    let r := login bcryptCompare generateToken sv.db now [] body
    (r.1, { db := r.2, windows := ws })

/-- The statuses answered to a sequence of `POST /api/auth/login` requests of
one client, given as body and time. -/
def postLoginStatuses (bcryptCompare : String → String → Bool) (generateToken : Nat → String)
    (sv : Server) : List (LoginBody × Time) → List Nat
  | [] => []
  | (body, now) :: rest =>
    let r := postLogin bcryptCompare generateToken sv now body
    r.1.status :: postLoginStatuses bcryptCompare generateToken r.2 rest

/-- Whether each of a sequence of requests at the given times is let through
by one limiter, starting from a window. -/
def Limiter.hits (l : Limiter) (w : Window) : List Time → List Bool
  | [] => []
  | now :: rest => (l.hit w now).1 :: Limiter.hits l (l.hit w now).2 rest

/-! ## Emergency keywords (`controllers/chatController.js`, `routes/chat.js`) -/

/-- Whether a character list contains another as a contiguous part. -/
def includesChars : List Char → List Char → Bool
  | [], t => t.isEmpty
  | c :: cs, t => t.isPrefixOf (c :: cs) || includesChars cs t

/-- The JavaScript `s.includes(t)`. -/
def jsIncludes (s t : String) : Bool :=
  includesChars s.data t.data

/-- The list `emergencyKeywords` of the chat controller. -/
def emergencyKeywords : List String :=
  ["emergency", "urgent", "dying", "blood", "bleeding", "seizure", "choking",
   "poisoned", "toxic", "can\x27t breathe", "unconscious", "severe pain",
   "hit by car", "attacked", "broken bone", "bloated", "pale gums",
   "not breathing", "collapsed", "vomiting blood", "can\x27t walk"]

/-- The list `emergencyWords` of `generateIntelligentResponse`. -/
def emergencyWords : List String :=
  ["emergency", "urgent", "dying", "blood", "bleeding", "seizure", "choking", "poisoned",
   "toxic", "unconscious", "severe pain", "hit by car", "attacked", "broken bone", "bloated",
   "pale gums", "not breathing", "collapsed"]

/-- The emergency check of `handleChat`:
`emergencyKeywords.some(keyword => message.toLowerCase().includes(keyword))`;
`toLowerCase` is `String.prototype.toLowerCase`, a built-in of the runtime. -/
def isEmergency (toLowerCase : String → String) (message : String) : Bool :=
  emergencyKeywords.any (fun keyword => jsIncludes (toLowerCase message) keyword)

/-- The emergency check of `generateIntelligentResponse`:
`emergencyWords.some(word => lowerMessage.includes(word))`. -/
def isDemoEmergency (toLowerCase : String → String) (message : String) : Bool :=
  emergencyWords.any (fun word => jsIncludes (toLowerCase message) word)

/-- The content of the emergency response of `handleChat`. -/
def emergencyContent : String :=
  "🚨 This sounds like a potential emergency! Please contact your nearest veterinary clinic or emergency animal hospital immediately. If it\x27s after hours, search for \x2724-hour emergency vet near me\x27 or call an emergency vet hotline. Your pet\x27s safety is the top priority. Don\x27t wait - seek professional help right away!"

/-- The function `generateDemoResponse`. -/
def generateDemoResponse (toLowerCase : String → String) (message : String) : String :=
  let lowerMessage := toLowerCase message
  if jsIncludes lowerMessage "dog" || jsIncludes lowerMessage "puppy" then
    "I understand you\x27re asking about your dog! Dogs are wonderful companions. For any health concerns, please observe your dog\x27s behavior, appetite, and energy levels. If you notice any changes in eating, drinking, or bathroom habits, it\x27s worth consulting your veterinarian. What specific aspect of your dog\x27s care would you like to discuss?"
  else if jsIncludes lowerMessage "cat" || jsIncludes lowerMessage "kitten" then
    "Cats are amazing pets! They\x27re generally good at hiding illness, so it\x27s important to watch for subtle changes in behavior. Regular vet checkups, proper nutrition, and mental stimulation are key to keeping your cat healthy. Is there something specific about your cat\x27s health or behavior you\x27d like help with?"
  else if jsIncludes lowerMessage "food" || jsIncludes lowerMessage "eating" ||
      jsIncludes lowerMessage "nutrition" then
    "Proper nutrition is crucial for pet health! The best diet depends on your pet\x27s age, size, activity level, and any health conditions. Always transition to new foods gradually over 7-10 days to avoid digestive upset. For specific dietary recommendations, consult your veterinarian who knows your pet\x27s individual needs."
  else if jsIncludes lowerMessage "training" || jsIncludes lowerMessage "behavior" then
    "Training and behavior are important for a happy pet-owner relationship! Positive reinforcement works best - reward good behavior with treats, praise, or play. Consistency is key, and all family members should use the same commands. For persistent behavioral issues, consider consulting a professional trainer or animal behaviorist."
  else
    "Thank you for your question! As Dr. PawCare, I\x27m here to help with pet health, nutrition, training, and general care advice. Could you provide more details about your pet and the specific concern you have? This helps me give you the most relevant and helpful guidance. Remember, for any urgent health issues, please contact your veterinarian immediately."

/-- The emergency response of `generateIntelligentResponse`. -/
def demoEmergencyResponse : String :=
  "🚨 This sounds like a medical emergency! Please contact your veterinarian immediately or visit the nearest emergency animal hospital. Time is critical in emergency situations. Don\x27t wait - get professional help right now!"

/-- The list `generalResponses` of `generateIntelligentResponse`. -/
def generalResponses : List String :=
  ["Thank you for caring about your pet\x27s wellbeing! For specific concerns, I always recommend consulting with your veterinarian who can provide personalized advice based on your pet\x27s unique needs and medical history.",
   "That\x27s a thoughtful question about pet care! Every pet is unique, so what works for one might not work for another. Your veterinarian is the best resource for advice tailored to your specific situation.",
   "I appreciate you reaching out about your pet! While I can offer general guidance, your veterinarian knows your pet\x27s health history and can provide the most accurate advice for your specific situation.",
   "Pet health and behavior can be complex topics. For the most reliable advice, I recommend discussing your concerns with a qualified veterinarian who can examine your pet and consider their individual needs."]

/-- The topic branches of `generateIntelligentResponse`, in order: the phrases
of each test and the response returned when one of them is included. -/
def demoTopics : List (List String × String) :=
  [(["not eating", "loss of appetite", "refusing food"],
    "Loss of appetite in pets can be concerning. Common causes include stress, dental issues, illness, or changes in environment. Try offering their favorite treats or warming their food slightly. If they haven\x27t eaten for more than 24 hours (12 hours for puppies/kittens), please consult your veterinarian."),
   (["vomiting", "throwing up"],
    "Vomiting can be caused by eating too quickly, dietary indiscretion, or underlying health issues. Withhold food for 12-24 hours (but not water), then offer small amounts of bland food. If vomiting continues, contains blood, or your pet seems lethargic, contact your vet immediately."),
   (["diarrhea", "loose stool"],
    "Diarrhea in pets can result from dietary changes, stress, or infections. Ensure they stay hydrated and consider a bland diet (boiled chicken and rice for dogs). If diarrhea persists beyond 24-48 hours, contains blood, or your pet shows other symptoms, please see your veterinarian."),
   (["scratching", "itchy", "itching"],
    "Excessive scratching can indicate allergies, fleas, dry skin, or skin infections. Check for fleas or unusual redness. Regular grooming and flea prevention help. If scratching is persistent or causing wounds, your vet can determine the cause and recommend appropriate treatment."),
   (["aggressive", "biting", "attacking"],
    "Aggressive behavior can stem from fear, pain, territorial instincts, or lack of socialization. Never punish aggressive behavior as it may worsen the situation. Consult a professional animal behaviorist or veterinarian to identify triggers and develop a safe training plan."),
   (["training", "obedience", "commands"],
    "Positive reinforcement training works best for most pets! Use treats, praise, and consistency. Start with basic commands like \x27sit\x27 and \x27stay\x27. Keep training sessions short (5-10 minutes) and practice daily. Patience and consistency are key to success!"),
   (["diet", "food", "nutrition", "feeding"],
    "A balanced diet is crucial for your pet\x27s health! Choose age-appropriate, high-quality pet food. Avoid human foods that are toxic to pets (chocolate, grapes, onions, etc.). Feed consistent portions at regular times. Consult your vet about the best diet for your pet\x27s specific needs."),
   (["exercise", "walk", "activity"],
    "Regular exercise is essential for your pet\x27s physical and mental health! Dogs typically need 30 minutes to 2 hours daily depending on breed and age. Cats benefit from interactive play sessions. Adjust exercise intensity based on your pet\x27s age, health, and energy level."),
   (["kitten", "puppy", "baby"],
    "Young pets require special care! They need frequent feeding, socialization, and veterinary check-ups. Ensure they\x27re up-to-date on vaccinations and deworming. Create a safe, warm environment and start gentle training early. Regular vet visits are crucial during their first year."),
   (["senior", "old", "elderly"],
    "Senior pets need extra attention and care. They may require more frequent vet check-ups, joint supplements, softer bedding, and adjusted exercise routines. Watch for signs of cognitive decline, arthritis, or other age-related conditions. Many senior pets thrive with proper care and love!")]

/-- The function `generateIntelligentResponse`; `random` is
`Math.floor(Math.random() * generalResponses.length)`. -/
def generateIntelligentResponse (toLowerCase : String → String) (random : Fin 4)
    (message : String) : String :=
  let lowerMessage := toLowerCase message
  if emergencyWords.any (fun word => jsIncludes lowerMessage word) then demoEmergencyResponse
  else
    match demoTopics.find? (fun topic => topic.1.any (fun phrase => jsIncludes lowerMessage phrase)) with
    | some topic => topic.2
    | none => generalResponses.getD random.val ""

/-! ## The News slug (`models/News.js`) -/

/-- Runs of characters that satisfy `p` replaced by one `sep` each, as
`s.replace(/p+/g, sep)` does; the flag tells whether the previous character
was part of a run. -/
def replaceRuns (p : Char → Bool) (sep : Char) : Bool → List Char → List Char
  | _, [] => []
  | inRun, c :: cs =>
    if p c then
      if inRun then replaceRuns p sep true cs else sep :: replaceRuns p sep true cs
    else c :: replaceRuns p sep false cs

/-- The characters the first replacement of the slug keeps: those outside
`[^a-z0-9\s-]`. -/
def isSlugChar (c : Char) : Bool :=
  c.isLower || c.isDigit || isJsSpace c || c = '-'

/-- The slug the News pre-save hook computes from the title: the title in
lower case, without the characters other than `a-z`, `0-9`, white space and
the hyphen, with every run of white space replaced by one hyphen, then every
run of hyphens by one hyphen, and at last `.trim('-')`, where `trim` ignores
its argument and removes white space only. -/
def slugOfTitle (title : String) : String :=
  let kept := (jsToLowerCase title).data.filter isSlugChar
  let hyphenated := replaceRuns isJsSpace '-' false kept
  let collapsed := replaceRuns (fun c => c = '-') '-' false hyphenated
  jsTrim (String.mk collapsed)

/-- The `slug` after the first block of the News pre-save hook at time `now`,
for a document whose title is modified or whose slug is empty: an empty slug
becomes `article-` followed by the time. -/
def newsSlug (title : String) (now : Time) : String :=
  if slugOfTitle title = "" then "article-" ++ toString now else slugOfTitle title

/-! ## Posts (`routes/posts.js`) -/

/-- A post of the list `mockPosts`, with the fields the claims read. -/
structure Post where
  id : String
  title : String := ""
  userId : String := ""
  views : Nat := 0
  deriving DecidableEq

/-- The initial list `mockPosts`. -/
def mockPosts : List Post :=
  [{ id := "1", title := "Lost Golden Retriever - Max", userId := "user1" },
   { id := "2", title := "Free Kitten to Good Home", userId := "user2" }]

/-- The body of a `createPost` request: any of its keys is spread into the
new post. -/
structure PostBody where
  id : Option String := none
  title : Option String := none

/-- The handler `createPost` at time `now` for the user `userId`: the new post
is `{ id: Date.now().toString(), ...req.body, userId, ... }`, so that an `id`
of the body replaces the generated one, and it is put in front of the list. -/
def createPost (posts : List Post) (now : Time) (userId : String) (body : PostBody) :
    Post × List Post :=
  let newPost : Post :=
    { id := body.id.getD (toString now)
      title := body.title.getD ""
      userId := userId
      views := 0 }
  (newPost, newPost :: posts)

/-- The list after `post.views += 1` on the first post with the given id. -/
def viewFirst (id : String) : List Post → List Post
  | [] => []
  | p :: rest =>
    if p.id == id then { p with views := p.views + 1 } :: rest else p :: viewFirst id rest

/-- The handler `getPost`: the first post with the given id, whose `views` it
increments; `none` stands for the 404 response. -/
def getPost (posts : List Post) (id : String) : Option Post × List Post :=
  match posts.find? (fun p => p.id == id) with
  | none => (none, posts)
  | some post => (some { post with views := post.views + 1 }, viewFirst id posts)

/-- The list after a sequence of `createPost` requests, each given as time,
user and body. -/
def createPosts (posts : List Post) : List (Time × String × PostBody) → List Post
  | [] => posts
  | (now, userId, body) :: rest => createPosts (createPost posts now userId body).2 rest

/-! ## Sequences of lockout operations -/

/-- A call of one of the two lockout methods of an account. -/
inductive LockoutOp where
  | incLoginAttempts (now : Time)
  | resetLoginAttempts

/-- The stored account after one lockout method ran. -/
def LockoutOp.run (u : User) : LockoutOp → User
  | .incLoginAttempts now => (u.incLoginAttempts now).apply u
  | .resetLoginAttempts => u.resetLoginAttempts.apply u

/-- The stored account after a sequence of lockout methods ran in order. -/
def runLockoutOps (u : User) (ops : List LockoutOp) : User :=
  ops.foldl LockoutOp.run u

/-! ## Chat sessions (`models/Chat.js`, `controllers/chatController.js`) -/

/-- A message subdocument: `tokens` and `metadata.isEmergency` as the pre-save
hook reads them (`none` for a missing value). -/
structure ChatMessage where
  role : String
  content : String
  tokens : Option Int := some 0
  isEmergency : Option Bool := some false
  deriving DecidableEq

/-- The counters of `chatSchema.metadata` (the average response time is left
out) and the rating. -/
structure ChatMetadata where
  totalTokens : Int := 0
  totalMessages : Nat := 0
  emergencyFlags : Nat := 0
  userSatisfaction : Option Nat := none
  deriving DecidableEq

/-- A document of the chat collection. -/
structure Chat where
  _id : Nat
  userId : Nat
  sessionId : String
  messages : List ChatMessage := []
  metadata : ChatMetadata := {}
  isActive : Bool := true
  lastActivity : Time := 0
  deriving DecidableEq

/-- The chat collection. -/
abbrev ChatDb := List Chat

/-- The pre-save hook of `chatSchema` at time `now`: the three counters are
recomputed from `messages` and `lastActivity` is set. -/
def preSaveChat (now : Time) (c : Chat) : Chat :=
  { c with
    metadata :=
      { c.metadata with
        totalMessages := c.messages.length
        totalTokens := (c.messages.map (fun msg => msg.tokens.getD 0)).sum
        emergencyFlags := (c.messages.filter (fun msg => msg.isEmergency == some true)).length }
    lastActivity := now }

/-- The validators of `messageSchema` on a message: the `role` enum, and
`content` required and at most 2000 characters. -/
def ChatMessage.valid (m : ChatMessage) : Bool :=
  ["user", "assistant", "system"].contains m.role && m.content != "" &&
    decide (jsLength m.content ≤ 2000)

/-- The validators `save()` runs on a chat document: `sessionId` required and
every message valid. -/
def Chat.valid (c : Chat) : Bool :=
  c.sessionId != "" && c.messages.all ChatMessage.valid

/-- Replacing the first stored chat that has the `_id` of the given one. -/
def ChatDb.replaceById (db : ChatDb) (c : Chat) : ChatDb :=
  match db with
  | [] => []
  | s :: rest => if s._id = c._id then c :: rest else s :: ChatDb.replaceById rest c

/-- The call `chat.save()` at time `now`: validation, the pre-save hook, then
the insert of a new document, which the unique index on `sessionId` rejects
for a value already stored, or the write of an existing one.  The result is
the saved document and the collection; `none` when `save` throws. -/
def ChatDb.save (db : ChatDb) (now : Time) (isNew : Bool) (c : Chat) : Option (Chat × ChatDb) :=
  if !c.valid then none
  else
    let saved := preSaveChat now c
    if isNew then
      if db.any (fun s => s.sessionId == saved.sessionId) then none
      else some (saved, db ++ [saved])
    else some (saved, db.replaceById saved)

/-- A fresh `_id` for a new chat document. -/
def ChatDb.freshId (db : ChatDb) : Nat :=
  (db.map Chat._id).foldr max 0 + 1

/-- The document `new Chat({ userId, sessionId: sessionId || now, messages: [] })`. -/
def newChat (db : ChatDb) (now : Time) (userId : Nat) (sessionId : Option String) : Chat :=
  { _id := db.freshId, userId := userId
    sessionId := if truthy sessionId then sessionId.getD "" else toString now }

/-- A message pushed onto `chat.messages`; the `trim` setter of `content`
applies. -/
def pushedMessage (role content : String) (tokens : Int) (isEmergency : Bool) : ChatMessage :=
  { role := role, content := jsTrim content, tokens := some tokens
    isEmergency := some isEmergency }

/-- The helper `saveChatMessage` at time `now`; whatever it throws is caught
and logged, and the collection is then left as it was. -/
def saveChatMessage (db : ChatDb) (now : Time) (userId : Nat) (sessionId : Option String)
    (userMessage aiResponse : String) (isEmergency : Bool) : ChatDb :=
  let found :=
    match sessionId with
    | none => none
    | some sid => db.find? (fun c => c.userId == userId && c.sessionId == sid && c.isActive)
  let (chat, isNew) :=
    match found with
    | some c => (c, false)
    | none => (newChat db now userId sessionId, true)
  let chat₁ :=
    { chat with
      messages := chat.messages ++
        [pushedMessage "user" userMessage 0 false,
         pushedMessage "assistant" aiResponse 0 isEmergency] }
  match ChatDb.save db now isNew chat₁ with
  | none => db
  | some (_, db₁) => db₁

/-- The JSON response of the chat handlers. -/
structure ChatReply where
  status : Nat
  success : Bool
  message : Option String := none
  reply : Option String := none
  isEmergency : Option Bool := none
  sessionId : Option String := none
  tokens : Option Nat := none
  chat : Option Chat := none
  deriving DecidableEq

/-- The 500 response of the `catch` block of `handleChat`. -/
def chatFallback : ChatReply :=
  { status := 500, success := false
    message := some "I\x27m sorry, I\x27m having trouble responding right now. Please try again in a moment or consult your veterinarian for urgent concerns." }

/-- The session `handleChat` writes to, and whether it is a new document: the
active session of the user with the given id; else, when an id is given, any
session of the user with that id; else a new document. -/
def openSession (db : ChatDb) (now : Time) (userId : Nat) (sessionId : Option String) :
    Chat × Bool :=
  let sid := sessionId.getD ""
  let active :=
    if truthy sessionId then
      db.find? (fun c => c.userId == userId && c.sessionId == sid && c.isActive)
    else none
  let found :=
    match active with
    | some c => some c
    | none =>
      if truthy sessionId then db.find? (fun c => c.userId == userId && c.sessionId == sid)
      else none
  match found with
  | some c => (c, false)
  | none => (newChat db now userId sessionId, true)

/-- The document `handleChat` saves: the session with the message and the
response pushed, `metadata.totalTokens += 50` and `lastActivity` set. -/
def exchangeDoc (chat : Chat) (now : Time) (msg aiResponse : String) : Chat :=
  { chat with
    messages := chat.messages ++
      [pushedMessage "user" msg 0 false, pushedMessage "assistant" aiResponse 50 false]
    metadata := { chat.metadata with totalTokens := chat.metadata.totalTokens + 50 }
    lastActivity := now }

/-- The controller `handleChat` at time `now` for the user `userId` that
`protect` attached: `errors` is `validationResult(req).array()`, `message` and
`sessionId` are the fields of the body, `toLowerCase` is
`String.prototype.toLowerCase`. -/
def handleChat (toLowerCase : String → String) (db : ChatDb) (now : Time)
    (errors : List String) (userId : Nat) (message sessionId : Option String) :
    ChatReply × ChatDb :=
  if !errors.isEmpty then
    ({ status := 400, success := false, message := some "Validation errors" }, db)
  else if !truthy message || jsLength (jsTrim (message.getD "")) == 0 then
    ({ status := 400, success := false, message := some "Message is required" }, db)
  else
    let msg := message.getD ""
    if isEmergency toLowerCase msg then
      let db₁ := saveChatMessage db now userId sessionId msg emergencyContent true
      ({ status := 200, success := true, reply := some emergencyContent
         isEmergency := some true
         sessionId := some (if truthy sessionId then sessionId.getD "" else toString now) },
       db₁)
    else
      let aiResponse := generateDemoResponse toLowerCase msg
      let session := openSession db now userId sessionId
      match ChatDb.save db now session.2 (exchangeDoc session.1 now msg aiResponse) with
      | none => (chatFallback, db)
      | some (saved, db₁) =>
        ({ status := 200, success := true, reply := some aiResponse
           sessionId := some saved.sessionId, tokens := some 50 },
         db₁)

/-- The controller `getChatSession`. -/
def getChatSession (db : ChatDb) (userId : Nat) (sessionId : String) : ChatReply :=
  match db.find? (fun c => c.userId == userId && c.sessionId == sessionId && c.isActive) with
  | none => { status := 404, success := false, message := some "Chat session not found" }
  | some chat => { status := 200, success := true, chat := some chat }

/-- Setting `isActive` to `false` on the first chat that satisfies a filter:
`findOneAndUpdate(filter, { isActive: false })`. -/
def ChatDb.deactivateFirst (p : Chat → Bool) : ChatDb → ChatDb
  | [] => []
  | c :: rest =>
    if p c then { c with isActive := false } :: rest else c :: ChatDb.deactivateFirst p rest

/-- The controller `clearChatSession`. -/
def clearChatSession (db : ChatDb) (userId : Nat) (sessionId : String) : ChatReply × ChatDb :=
  match db.find? (fun c => c.userId == userId && c.sessionId == sessionId) with
  | none => ({ status := 404, success := false, message := some "Chat session not found" }, db)
  | some _ =>
    ({ status := 200, success := true, message := some "Chat session cleared successfully" },
     ChatDb.deactivateFirst (fun c => c.userId == userId && c.sessionId == sessionId) db)

/-- The three counters of a chat agree with its messages. -/
def Chat.countersAgree (c : Chat) : Prop :=
  c.metadata.totalMessages = c.messages.length ∧
  c.metadata.totalTokens = (c.messages.map (fun msg => msg.tokens.getD 0)).sum ∧
  c.metadata.emergencyFlags =
    (c.messages.filter (fun msg => msg.isEmergency == some true)).length

/-! ## Sample data -/

/-- A stand-in for `bcrypt.compare` on sample data: the hash of `p` is
`"hash:" ++ p`. -/
def sampleCompare (candidate hash : String) : Bool :=
  hash == "hash:" ++ candidate

/-- A stand-in for `jwt.sign` on sample data. -/
def sampleSign (id : Nat) : String :=
  if id = 1 then "jwt-1" else if id = 2 then "jwt-2" else "jwt-other"

/-- A stand-in for `jwt.verify` on sample data. -/
def sampleVerify (token : String) : Option Nat :=
  if token == "jwt-1" then some 1 else if token == "jwt-2" then some 2 else none

/-- A freshly registered account with password `secret`. -/
def ann : User :=
  { _id := 1, name := "Ann", email := "a@x.com", password := "hash:secret",
    security := { loginAttempts := some 0 } }

/-- A deactivated account with password `secret`. -/
def bob : User :=
  { _id := 2, name := "Bob", email := "b@x.com", password := "hash:secret", isActive := false,
    security := { loginAttempts := some 0 } }

/-- An account whose lock ran out at time 100 and whose counter is 0. -/
def cat : User :=
  { _id := 3, name := "Cat", email := "c@x.com", password := "hash:secret",
    security := { loginAttempts := some 0, lockUntil := some 100 } }

/-- An account locked until time 9000 after five failures. -/
def dan : User :=
  { _id := 4, name := "Dan", email := "d@x.com", password := "hash:secret",
    security := { loginAttempts := some 5, lockUntil := some 9000 } }

/-- A sample collection. -/
def sampleDb : Db := [ann, bob, cat, dan]

/-- The collection after a sequence of `findByCredentials` calls for one email,
each given as the password tried and the time of the call. -/
def credentialCalls (bcryptCompare : String → String → Bool) (db : Db) (email : String) :
    List (String × Time) → Db
  | [] => db
  | (password, now) :: rest =>
    credentialCalls bcryptCompare (findByCredentials bcryptCompare db email password now).db
      email rest

/-- The collection after a sequence of requests to `login`, each given as the
body sent and the time of the request; the validators report no error. -/
def loginCalls (bcryptCompare : String → String → Bool) (generateToken : Nat → String)
    (db : Db) : List (LoginBody × Time) → Db
  | [] => db
  | (body, now) :: rest =>
    loginCalls bcryptCompare generateToken
      (login bcryptCompare generateToken db now [] body).2 rest

/-- A login body for `a@x.com` with a wrong password. -/
def annWrong : LoginBody := { email := some "a@x.com", password := some "wrong" }

/-- A login body for `a@x.com` with the right password. -/
def annRight : LoginBody := { email := some "a@x.com", password := some "secret" }

/-- A login body for the deactivated `b@x.com` with the right password. -/
def bobRight : LoginBody := { email := some "b@x.com", password := some "secret" }

/-- A stand-in for `bcrypt.hash` on sample data, matching `sampleCompare`. -/
def sampleHash (password : String) (_cost : Nat) : String :=
  "hash:" ++ password

/-- A stand-in for the SHA-256 hex digest on sample data. -/
def sampleSha (token : String) : String :=
  "sha:" ++ token

/-- A stand-in for `normalizeEmail` on sample data: lower case. -/
def sampleNormalize (email : String) : Option String :=
  some (jsToLowerCase email)

/-- A stand-in for `jwt.sign` that covers every id. -/
def demoSign (id : Nat) : String :=
  "jwt." ++ toString id

/-- A stand-in for `jwt.verify` that inverts `demoSign` on the ids below 100. -/
def demoVerify (token : String) : Option Nat :=
  (List.range 100).find? (fun id => demoSign id == token)

/-- A login body for an email no account has. -/
def nobodyBody : LoginBody := { email := some "nobody@x.com", password := some "secret" }

/-- A register body whose email is that of `ann` with a leading blank. -/
def annAgain : RegisterBody :=
  { name := some "Ann Again", email := some " a@x.com", password := some "secret" }

/-- A register body with a password of four characters. -/
def eveShort : RegisterBody :=
  { name := some "Eve", email := some "eve@x.com", password := some "abcd" }

/-- A register body with a password of two characters. -/
def eveTiny : RegisterBody :=
  { name := some "Eve", email := some "eve@x.com", password := some "ab" }

/-- A register body that asks for the role `admin`. -/
def malAdmin : RegisterBody :=
  { name := some "Mal", email := some "mal@x.com", password := some "secret1",
    role := some "admin" }

/-- A register body as in `test-auth.js`. -/
def testUser : RegisterBody :=
  { name := some "Test User", email := some "test@example.com", password := some "password123" }

/-- Eleven login requests of one client with a wrong password, one per
millisecond. -/
def elevenLogins : List (LoginBody × Time) :=
  (List.range 11).map (fun i => (annWrong, (i : Int)))

/-- The message of `test-ai-chat.js` that the test marks as an emergency. -/
def breathingMessage : String := "My pet is having trouble breathing"

/-- A message with a keyword of `handleChat` that `emergencyWords` lacks. -/
def walkMessage : String := "My dog can\x27t walk"

/-- A register body whose email has a local part of 26 characters. -/
def longLocalPart : RegisterBody :=
  { name := some "Long Name", email := some "abcdefghijklmnopqrstuvwxyz@x.com",
    password := some "secret" }

/-- The chat collection after user 1 sent a first message in the session `s1`
at time 1000. -/
def chatStarted : ChatDb :=
  (handleChat jsToLowerCase [] 1000 [] 1 (some "hello there") (some "s1")).2

/-- The chat collection after user 1 then cleared the session `s1`. -/
def chatCleared : ChatDb :=
  (clearChatSession chatStarted 1 "s1").2

/-- Five failed attempts at times 1 to 5, a sixth after the lock ran out, and a
reset. -/
def sampleLockoutOps : List LockoutOp :=
  [.incLoginAttempts 1, .incLoginAttempts 2, .incLoginAttempts 3, .incLoginAttempts 4,
   .incLoginAttempts 5, .incLoginAttempts 8000000, .resetLoginAttempts]

/-! ## Statements used by the theorems -/

/-- The write made by the `save` of `forgotPassword` on the stored account:
the two reset fields. -/
def setResetFields (hash : String) (expire : Time) (stored : User) : User :=
  { stored with resetPasswordToken := some hash, resetPasswordExpire := some expire }

/-- A guard refused the request with the given status: it sent that status,
did not call `next`, and left the request object and the collection as they
were. -/
def GuardResult.refusedWith (r : GuardResult) (status : Nat) (req : Request) (db : Db) : Prop :=
  r.response.map Reply.status = some status ∧ r.nextCalled = false ∧ r.req = req ∧ r.db = db

/-! ## Lemmas on the collection -/

theorem Db.findById_id {db : Db} {id : Nat} {u : User} (h : db.findById id = some u) :
    u._id = id := by
  have := List.find?_some h
  simpa using this

theorem Db.findById_modifyById (db : Db) (id : Nat) (f : User → User)
    (hf : ∀ x, (f x)._id = x._id) :
    Db.findById (db.modifyById id f) id = (db.findById id).map f := by
  induction db with
  | nil => rfl
  | cons x rest ih =>
    unfold Db.findById at ih ⊢
    by_cases hx : x._id = id
    · simp [Db.modifyById, hx, List.find?_cons, hf]
    · simp [Db.modifyById, hx, List.find?_cons, ih]

theorem Db.map_id_modifyById (db : Db) (id : Nat) (f : User → User)
    (hf : ∀ x, (f x)._id = x._id) :
    (db.modifyById id f).map User._id = db.map User._id := by
  induction db with
  | nil => rfl
  | cons x rest ih =>
    by_cases hx : x._id = id
    · simp [Db.modifyById, hx, hf]
    · simp [Db.modifyById, hx, ih]

theorem Db.uniqueIds_modifyById {db : Db} (h : db.uniqueIds) (id : Nat) (f : User → User)
    (hf : ∀ x, (f x)._id = x._id) : Db.uniqueIds (db.modifyById id f) := by
  unfold Db.uniqueIds at h ⊢
  rw [Db.map_id_modifyById db id f hf]
  exact h

theorem Db.findById_saveLastActive (db : Db) (id : Nat) (now : Time) :
    Db.findById (db.saveLastActive id now) id =
      (db.findById id).map (fun u => { u with lastActive := now }) :=
  Db.findById_modifyById db id (fun u => { u with lastActive := now }) (fun _ => rfl)

theorem Db.findById_updateOne (db : Db) (id : Nat) (upd : Update) :
    Db.findById (db.updateOne id upd) id = (db.findById id).map upd.apply :=
  Db.findById_modifyById db id upd.apply (fun _ => rfl)

/-- A filter that the rewrite does not affect finds the rewritten document. -/
theorem Db.find?_modifyById {db : Db} (h : db.uniqueIds) (p : User → Bool) (f : User → User)
    (hp : ∀ x, p (f x) = p x) {u : User} (hu : db.find? p = some u) :
    List.find? p (db.modifyById u._id f) = some (f u) := by
  induction db with
  | nil => simp at hu
  | cons x rest ih =>
    unfold Db.uniqueIds at h
    simp only [List.map_cons, List.nodup_cons] at h
    by_cases hpx : p x = true
    · have hxu : x = u := by simpa [List.find?_cons, hpx] using hu
      subst hxu
      simp [Db.modifyById, List.find?_cons, hp, hpx]
    · have hrest : List.find? p rest = some u := by simpa [List.find?_cons, hpx] using hu
      have hmem : u ∈ rest := List.mem_of_find?_eq_some hrest
      have hne : x._id ≠ u._id := by
        intro hEq
        exact h.1 (hEq ▸ List.mem_map_of_mem User._id hmem)
      have := ih h.2 hrest
      simp [Db.modifyById, hne, List.find?_cons, hpx, this]

/-- With unique ids, a document found by any filter is the one its `_id` names. -/
theorem Db.findById_of_find? {db : Db} (h : db.uniqueIds) (p : User → Bool) {u : User}
    (hu : db.find? p = some u) : db.findById u._id = some u := by
  induction db with
  | nil => simp at hu
  | cons x rest ih =>
    unfold Db.uniqueIds at h
    simp only [List.map_cons, List.nodup_cons] at h
    unfold Db.findById at ih ⊢
    by_cases hpx : p x = true
    · have hxu : x = u := by simpa [List.find?_cons, hpx] using hu
      subst hxu
      simp [List.find?_cons]
    · have hrest : List.find? p rest = some u := by simpa [List.find?_cons, hpx] using hu
      have hmem : u ∈ rest := List.mem_of_find?_eq_some hrest
      have hne : x._id ≠ u._id := by
        intro hEq
        exact h.1 (hEq ▸ List.mem_map_of_mem User._id hmem)
      have := ih h.2 hrest
      simp [List.find?_cons, hne, this]

/-! ## The session guard -/

/-- C1: `protect` refuses with 401, without calling `next` and without touching
the request, when (a) no token is extracted, (b) `jwt.verify` rejects the
token, (c) no account has the decoded id, or (d) the account is inactive; in
the remaining case it stores `lastActive = now`, attaches exactly that account
to the request and calls `next` without sending a response. -/
theorem protect_contract (jwtVerify : String → Option Nat) (db : Db) (now : Time)
    (req : Request) :
    (truthy (extractToken req) = false →
      (protect jwtVerify db now req).refusedWith 401 req db) ∧
    (∀ tok, extractToken req = some tok → tok ≠ "" → jwtVerify tok = none →
      (protect jwtVerify db now req).refusedWith 401 req db) ∧
    (∀ tok id, extractToken req = some tok → tok ≠ "" → jwtVerify tok = some id →
      db.findById id = none →
      (protect jwtVerify db now req).refusedWith 401 req db) ∧
    (∀ tok id u, extractToken req = some tok → tok ≠ "" → jwtVerify tok = some id →
      db.findById id = some u → u.isActive = false →
      (protect jwtVerify db now req).refusedWith 401 req db) ∧
    (∀ tok id u, extractToken req = some tok → tok ≠ "" → jwtVerify tok = some id →
      db.findById id = some u → u.isActive = true →
      (protect jwtVerify db now req).response = none ∧
      (protect jwtVerify db now req).nextCalled = true ∧
      (protect jwtVerify db now req).req = { req with user := some { u with lastActive := now } } ∧
      (protect jwtVerify db now req).db.findById id = some { u with lastActive := now }) := by
  refine ⟨?_, ?_, ?_, ?_, ?_⟩
  · intro h
    simp [protect, h, GuardResult.refusedWith]
  · intro tok htok hne hv
    have ht : truthy (some tok) = true := by simp [truthy, hne]
    simp [protect, htok, ht, hv, GuardResult.refusedWith]
  · intro tok id htok hne hv hf
    have ht : truthy (some tok) = true := by simp [truthy, hne]
    simp [protect, htok, ht, hv, hf, GuardResult.refusedWith]
  · intro tok id u htok hne hv hf ha
    have ht : truthy (some tok) = true := by simp [truthy, hne]
    simp [protect, htok, ht, hv, hf, ha, GuardResult.refusedWith]
  · intro tok id u htok hne hv hf ha
    have ht : truthy (some tok) = true := by simp [truthy, hne]
    have hid : u._id = id := Db.findById_id hf
    have hdb := Db.findById_modifyById db id (fun x => { x with lastActive := now })
      (fun _ => rfl)
    simp only [protect, htok, ht, hv, hf, ha, Option.some_bind, Bool.not_true,
      Bool.false_eq_true, if_false, true_and, hid, Db.saveLastActive]
    rw [hdb, hf]
    simp [ha, hid]

/-- C1 at sample requests: a bearer token of the active account `ann` is let
through with `lastActive` stored, a cookie token of the deactivated account
`bob` is refused with 401. -/
theorem protect_contract_witness :
    ((protect sampleVerify sampleDb 50 { authorization := some "Bearer jwt-1" }).response = none ∧
      (protect sampleVerify sampleDb 50 { authorization := some "Bearer jwt-1" }).nextCalled = true ∧
      (protect sampleVerify sampleDb 50 { authorization := some "Bearer jwt-1" }).req =
        { authorization := some "Bearer jwt-1", user := some { ann with lastActive := 50 } } ∧
      (protect sampleVerify sampleDb 50 { authorization := some "Bearer jwt-1" }).db.findById 1 =
        some { ann with lastActive := 50 }) ∧
    (protect sampleVerify sampleDb 50 { cookies := some { token := some "jwt-2" } }).refusedWith 401
      { cookies := some { token := some "jwt-2" } } sampleDb :=
  ⟨(protect_contract sampleVerify sampleDb 50 { authorization := some "Bearer jwt-1" }).2.2.2.2
      "jwt-1" 1 ann (by decide) (by decide) (by decide) (by decide) (by decide),
    (protect_contract sampleVerify sampleDb 50 { cookies := some { token := some "jwt-2" } }).2.2.2.1
      "jwt-2" 2 bob (by decide) (by decide) (by decide) (by decide) (by decide)⟩

/-- C2: `optionalAuth` sends no response and calls `next`; when `protect`
would have authenticated the same request it attaches the account `protect`
attaches (as loaded, without the `lastActive` write), and when `protect` would
have refused it leaves the request as it was. -/
theorem optionalAuth_refines_protect (jwtVerify : String → Option Nat) (db : Db) (now : Time)
    (req : Request) :
    (optionalAuth jwtVerify db req).response = none ∧
    (optionalAuth jwtVerify db req).nextCalled = true ∧
    (optionalAuth jwtVerify db req).db = db ∧
    ((protect jwtVerify db now req).nextCalled = true →
      ∃ u, (optionalAuth jwtVerify db req).req = { req with user := some u } ∧
        (protect jwtVerify db now req).req.user = some { u with lastActive := now }) ∧
    ((protect jwtVerify db now req).nextCalled = false →
      (optionalAuth jwtVerify db req).req = req) := by
  refine ⟨rfl, rfl, rfl, ?_, ?_⟩
  · intro h
    unfold protect at h ⊢
    unfold optionalAuth
    cases ht : truthy (extractToken req) <;> simp [ht] at h ⊢
    cases hv : (extractToken req).bind jwtVerify with
    | none => simp [hv] at h
    | some id =>
      simp only [hv] at h ⊢
      cases hf : db.findById id with
      | none => simp [hf] at h
      | some u =>
        simp only [hf] at h ⊢
        cases ha : u.isActive <;> simp [ha] at h ⊢
  · intro h
    unfold protect at h
    unfold optionalAuth
    cases ht : truthy (extractToken req) <;> simp [ht] at h ⊢
    cases hv : (extractToken req).bind jwtVerify with
    | none => simp [hv]
    | some id =>
      simp only [hv] at h ⊢
      cases hf : db.findById id with
      | none => simp [hf]
      | some u =>
        simp only [hf] at h ⊢
        cases ha : u.isActive <;> simp [ha] at h ⊢

/-- C2 at sample requests: with the bearer token of `ann` the account is
attached, with an unknown token the request is left as it was. -/
theorem optionalAuth_refines_protect_witness :
    (∃ u, (optionalAuth sampleVerify sampleDb { authorization := some "Bearer jwt-1" }).req =
        { authorization := some "Bearer jwt-1", user := some u } ∧
      (protect sampleVerify sampleDb 50 { authorization := some "Bearer jwt-1" }).req.user =
        some { u with lastActive := 50 }) ∧
    (optionalAuth sampleVerify sampleDb { authorization := some "Bearer forged" }).req =
      { authorization := some "Bearer forged" } :=
  ⟨(optionalAuth_refines_protect sampleVerify sampleDb 50
      { authorization := some "Bearer jwt-1" }).2.2.2.1 (by decide),
    (optionalAuth_refines_protect sampleVerify sampleDb 50
      { authorization := some "Bearer forged" }).2.2.2.2 (by decide)⟩

/-- C3: the middleware of `authorize(...roles)` answers 401 when no account is
attached, 403 when the attached account's role is not among `roles`, and calls
`next` (sending nothing) exactly when an account is attached whose role is
among `roles`. -/
theorem authorize_contract (roles : List String) (db : Db) (req : Request) :
    (req.user = none → (authorize roles db req).refusedWith 401 req db) ∧
    (∀ u, req.user = some u → u.role ∉ roles →
      (authorize roles db req).refusedWith 403 req db) ∧
    ((authorize roles db req).nextCalled = true ↔
      ∃ u, req.user = some u ∧ u.role ∈ roles) ∧
    ((authorize roles db req).nextCalled = true → (authorize roles db req).response = none) := by
  refine ⟨?_, ?_, ?_, ?_⟩
  · intro h
    simp [authorize, h, GuardResult.refusedWith]
  · intro u h hr
    simp [authorize, h, hr, GuardResult.refusedWith]
  · cases h : req.user with
    | none => simp [authorize, h]
    | some u =>
      by_cases hr : u.role ∈ roles <;> simp [authorize, h, hr]
  · cases h : req.user with
    | none => simp [authorize, h]
    | some u =>
      by_cases hr : u.role ∈ roles <;> simp [authorize, h, hr]

/-- C3 at sample requests: without an account 401, with the owner `ann` and
the roles `admin`, `shelter` 403. -/
theorem authorize_contract_witness :
    (authorize ["admin", "shelter"] sampleDb {}).refusedWith 401 {} sampleDb ∧
    (authorize ["admin", "shelter"] sampleDb { user := some ann }).refusedWith 403
      { user := some ann } sampleDb :=
  ⟨(authorize_contract ["admin", "shelter"] sampleDb {}).1 rfl,
    (authorize_contract ["admin", "shelter"] sampleDb { user := some ann }).2.1 ann rfl
      (by decide)⟩

/-! ## Lockout: helper lemmas -/

theorem Update.apply_id (upd : Update) (u : User) : (upd.apply u)._id = u._id := rfl

theorem Update.apply_activeEmail (upd : Update) (email : String) (u : User) :
    ((upd.apply u).email == email && (upd.apply u).isActive) = (u.email == email && u.isActive) :=
  rfl

/-- The stored lockout fields after the update of `incLoginAttempts`, for a
document whose lock has not run out. -/
theorem incLoginAttempts_apply_of_not_expired (u : User) (now : Time)
    (h : u.lockExpired now = false) :
    ((u.incLoginAttempts now).apply u).security =
      { loginAttempts := some (u.loginAttempts + 1)
        lockUntil :=
          if 5 ≤ u.loginAttempts + 1 ∧ u.isLocked now = false then some (now + 7200000)
          else u.security.lockUntil } := by
  unfold User.incLoginAttempts
  rw [if_neg (by simp [h])]
  dsimp only
  by_cases hc : 5 ≤ u.loginAttempts + 1 ∧ u.isLocked now = false
  · have hb : (decide (u.loginAttempts + 1 ≥ 5) && !u.isLocked now) = true := by
      simp [hc.1, hc.2]
    rw [if_pos hb, if_pos hc]
    simp [Update.apply, Update.applySecurity, User.loginAttempts]
  · have hb : ¬ (decide (u.loginAttempts + 1 ≥ 5) && !u.isLocked now) = true := by
      intro hb
      apply hc
      simpa using hb
    rw [if_neg hb, if_neg hc]
    simp [Update.apply, Update.applySecurity, User.loginAttempts]

theorem lockExpired_of_lockUntil_none (u : User) (now : Time)
    (h : u.security.lockUntil = none) : u.lockExpired now = false := by
  simp [User.lockExpired, h]

theorem isLocked_of_lockUntil_none (u : User) (now : Time)
    (h : u.security.lockUntil = none) : u.isLocked now = false := by
  simp [User.isLocked, h]

/-- A call for a locked account throws the lock error at once. -/
theorem findByCredentials_of_locked (bcryptCompare : String → String → Bool) (db : Db)
    (email password : String) (now : Time) (u : User)
    (hu : db.findActiveByEmail email = some u) (hl : u.isLocked now = true) :
    findByCredentials bcryptCompare db email password now =
      { outcome := .error accountLocked, db := db, effects := [] } := by
  simp [findByCredentials, hu, hl]

/-- A call with a wrong password for an account that is not locked: the error,
the collection afterwards, and the document the next call will find. -/
theorem findByCredentials_of_wrong (bcryptCompare : String → String → Bool) (db : Db)
    (email password : String) (now : Time) (u : User) (hdb : db.uniqueIds)
    (hu : db.findActiveByEmail email = some u) (hl : u.isLocked now = false)
    (hw : bcryptCompare password u.password = false) :
    (findByCredentials bcryptCompare db email password now).outcome = .error invalidCredentials ∧
    (findByCredentials bcryptCompare db email password now).db =
      db.updateOne u._id (u.incLoginAttempts now) ∧
    (findByCredentials bcryptCompare db email password now).db.uniqueIds ∧
    (findByCredentials bcryptCompare db email password now).db.findActiveByEmail email =
      some ((u.incLoginAttempts now).apply u) := by
  have hdb₁ : (findByCredentials bcryptCompare db email password now).db =
      db.updateOne u._id (u.incLoginAttempts now) := by
    simp [findByCredentials, hu, hl, hw]
  refine ⟨by simp [findByCredentials, hu, hl, hw], hdb₁, ?_, ?_⟩
  · rw [hdb₁]
    exact Db.uniqueIds_modifyById hdb _ _ (fun _ => rfl)
  · rw [hdb₁]
    exact Db.find?_modifyById hdb _ _ (fun x => Update.apply_activeEmail _ email x) hu

/-- A failed call for an account without a lock: the next call finds the same
account with the counter one higher, locked for two hours from `now` once the
counter reaches 5. -/
theorem findByCredentials_wrong_step (bcryptCompare : String → String → Bool) (db : Db)
    (email password : String) (now : Time) (u : User) (hdb : db.uniqueIds)
    (hu : db.findActiveByEmail email = some u) (hnl : u.security.lockUntil = none)
    (hw : bcryptCompare password u.password = false) :
    ∃ v, (findByCredentials bcryptCompare db email password now).db.uniqueIds ∧
      (findByCredentials bcryptCompare db email password now).db.findActiveByEmail email =
        some v ∧
      v.password = u.password ∧
      v.security.loginAttempts = some (u.loginAttempts + 1) ∧
      v.security.lockUntil =
        if 5 ≤ u.loginAttempts + 1 then some (now + 7200000) else none := by
  have hl := isLocked_of_lockUntil_none u now hnl
  obtain ⟨_, _, h3, h4⟩ :=
    findByCredentials_of_wrong bcryptCompare db email password now u hdb hu hl hw
  have hs := incLoginAttempts_apply_of_not_expired u now
    (lockExpired_of_lockUntil_none u now hnl)
  refine ⟨_, h3, h4, rfl, ?_, ?_⟩
  · rw [hs]
  · rw [hs]
    simp [hl, hnl]

/-! ## Lockout: the claims -/

/-- C4: for an active account whose `lockUntil` lies in the future,
`findByCredentials` throws the lock error for every password, a message other
than `Invalid credentials`, without comparing the password and without
changing the collection. -/
theorem findByCredentials_refuses_locked (bcryptCompare : String → String → Bool) (db : Db)
    (email password : String) (now : Time) (u : User) (l : Time)
    (hu : db.findActiveByEmail email = some u)
    (hl : u.security.lockUntil = some l) (hfut : now < l) :
    (findByCredentials bcryptCompare db email password now).outcome = .error accountLocked ∧
    accountLocked ≠ invalidCredentials ∧
    Effect.comparePassword ∉ (findByCredentials bcryptCompare db email password now).effects ∧
    (findByCredentials bcryptCompare db email password now).db = db := by
  have hlock : u.isLocked now = true := by simp [User.isLocked, hl, hfut]
  rw [findByCredentials_of_locked bcryptCompare db email password now u hu hlock]
  refine ⟨rfl, by decide, by simp, rfl⟩

/-- C4 at the sample account `dan`, locked until 9000, called at 5000 with the
right password. -/
theorem findByCredentials_refuses_locked_witness :
    sampleCompare "secret" dan.password = true ∧
    ((findByCredentials sampleCompare sampleDb "d@x.com" "secret" 5000).outcome =
        .error accountLocked ∧
      accountLocked ≠ invalidCredentials ∧
      Effect.comparePassword ∉
        (findByCredentials sampleCompare sampleDb "d@x.com" "secret" 5000).effects ∧
      (findByCredentials sampleCompare sampleDb "d@x.com" "secret" 5000).db = sampleDb) :=
  ⟨by decide,
    findByCredentials_refuses_locked sampleCompare sampleDb "d@x.com" "secret" 5000 dan 9000
      (by decide) rfl (by decide)⟩

/-- C5: for an active account with counter 0 and no lock, five calls of
`findByCredentials` with wrong passwords at times `t₁ ≤ … ≤ t₅` leave the
account locked at every time before `t₅ + 7200000`, and every call at such a
time, whatever the password, is refused with the lock error. -/
theorem five_failures_lock (bcryptCompare : String → String → Bool) (db : Db)
    (email : String) (u : User) (p₁ p₂ p₃ p₄ p₅ : String) (t₁ t₂ t₃ t₄ t₅ : Time)
    (hdb : db.uniqueIds) (hu : db.findActiveByEmail email = some u)
    (h0 : u.loginAttempts = 0) (hnl : u.security.lockUntil = none)
    (hw₁ : bcryptCompare p₁ u.password = false) (hw₂ : bcryptCompare p₂ u.password = false)
    (hw₃ : bcryptCompare p₃ u.password = false) (hw₄ : bcryptCompare p₄ u.password = false)
    (hw₅ : bcryptCompare p₅ u.password = false)
    (_h₁₂ : t₁ ≤ t₂) (_h₂₃ : t₂ ≤ t₃) (_h₃₄ : t₃ ≤ t₄) (_h₄₅ : t₄ ≤ t₅) :
    ∃ v, (credentialCalls bcryptCompare db email
          [(p₁, t₁), (p₂, t₂), (p₃, t₃), (p₄, t₄), (p₅, t₅)]).findActiveByEmail email = some v ∧
      v.loginAttempts = 5 ∧
      (∀ t, t < t₅ + 7200000 → v.isLocked t = true) ∧
      (∀ t password, t < t₅ + 7200000 →
        (findByCredentials bcryptCompare
          (credentialCalls bcryptCompare db email
            [(p₁, t₁), (p₂, t₂), (p₃, t₃), (p₄, t₄), (p₅, t₅)]) email password t).outcome =
          .error accountLocked) := by
  obtain ⟨v₁, hd₁, hf₁, hp₁, ha₁, hk₁⟩ :=
    findByCredentials_wrong_step bcryptCompare db email p₁ t₁ u hdb hu hnl hw₁
  rw [h0] at ha₁ hk₁
  simp only [Nat.zero_add, Nat.reduceLeDiff, if_false] at ha₁ hk₁
  have hn₁ : v₁.loginAttempts = 1 := by simp [User.loginAttempts, ha₁]
  obtain ⟨v₂, hd₂, hf₂, hp₂, ha₂, hk₂⟩ :=
    findByCredentials_wrong_step bcryptCompare _ email p₂ t₂ v₁ hd₁ hf₁ hk₁ (hp₁ ▸ hw₂)
  rw [hn₁] at ha₂ hk₂
  simp only [Nat.reduceAdd, Nat.reduceLeDiff, if_false] at ha₂ hk₂
  have hn₂ : v₂.loginAttempts = 2 := by simp [User.loginAttempts, ha₂]
  obtain ⟨v₃, hd₃, hf₃, hp₃, ha₃, hk₃⟩ :=
    findByCredentials_wrong_step bcryptCompare _ email p₃ t₃ v₂ hd₂ hf₂ hk₂
      (hp₂ ▸ hp₁ ▸ hw₃)
  rw [hn₂] at ha₃ hk₃
  simp only [Nat.reduceAdd, Nat.reduceLeDiff, if_false] at ha₃ hk₃
  have hn₃ : v₃.loginAttempts = 3 := by simp [User.loginAttempts, ha₃]
  obtain ⟨v₄, hd₄, hf₄, hp₄, ha₄, hk₄⟩ :=
    findByCredentials_wrong_step bcryptCompare _ email p₄ t₄ v₃ hd₃ hf₃ hk₃
      (hp₃ ▸ hp₂ ▸ hp₁ ▸ hw₄)
  rw [hn₃] at ha₄ hk₄
  simp only [Nat.reduceAdd, Nat.reduceLeDiff, if_false] at ha₄ hk₄
  have hn₄ : v₄.loginAttempts = 4 := by simp [User.loginAttempts, ha₄]
  obtain ⟨v₅, _, hf₅, _, ha₅, hk₅⟩ :=
    findByCredentials_wrong_step bcryptCompare _ email p₅ t₅ v₄ hd₄ hf₄ hk₄
      (hp₄ ▸ hp₃ ▸ hp₂ ▸ hp₁ ▸ hw₅)
  rw [hn₄] at ha₅ hk₅
  simp only [Nat.reduceAdd, le_refl, if_true] at ha₅ hk₅
  have hlock : ∀ t, t < t₅ + 7200000 → v₅.isLocked t = true := by
    intro t ht
    simp [User.isLocked, hk₅, ht]
  refine ⟨v₅, hf₅, by simp [User.loginAttempts, ha₅], hlock, ?_⟩
  intro t password ht
  have := findByCredentials_of_locked bcryptCompare
    (credentialCalls bcryptCompare db email
      [(p₁, t₁), (p₂, t₂), (p₃, t₃), (p₄, t₄), (p₅, t₅)]) email password t v₅ hf₅ (hlock t ht)
  rw [this]

/-- C5 at the sample account `ann` with wrong passwords at times 1 to 5. -/
theorem five_failures_lock_witness :
    ∃ v, (credentialCalls sampleCompare sampleDb "a@x.com"
          [("w1", 1), ("w2", 2), ("w3", 3), ("w4", 4), ("w5", 5)]).findActiveByEmail "a@x.com" =
        some v ∧
      v.loginAttempts = 5 ∧
      (∀ t, t < 5 + 7200000 → v.isLocked t = true) ∧
      (∀ t password, t < 5 + 7200000 →
        (findByCredentials sampleCompare
          (credentialCalls sampleCompare sampleDb "a@x.com"
            [("w1", 1), ("w2", 2), ("w3", 3), ("w4", 4), ("w5", 5)]) "a@x.com" password t).outcome =
          .error accountLocked) :=
  five_failures_lock sampleCompare sampleDb "a@x.com" ann "w1" "w2" "w3" "w4" "w5" 1 2 3 4 5
    (by decide) (by decide) rfl rfl (by decide) (by decide) (by decide) (by decide) (by decide)
    (by decide) (by decide) (by decide) (by decide)

/-- C8: for an account whose `lockUntil` is unset or not earlier than `now`,
the update of `incLoginAttempts` is `$inc` of `security.loginAttempts` by 1,
together with `$set` of `security.lockUntil` to `now + 7200000` exactly when
`loginAttempts + 1 ≥ 5` and the account is not locked; applied to the stored
document it raises the counter by 1 and otherwise leaves `lockUntil` as it
was. -/
theorem incLoginAttempts_increments (u : User) (now : Time)
    (h : ∀ l, u.security.lockUntil = some l → now ≤ l) :
    u.incLoginAttempts now =
      { incLoginAttempts := some 1
        setLockUntil :=
          if 5 ≤ u.loginAttempts + 1 ∧ u.isLocked now = false then some (now + 7200000)
          else none } ∧
    ((u.incLoginAttempts now).apply u).security.loginAttempts = some (u.loginAttempts + 1) ∧
    ((u.incLoginAttempts now).apply u).security.lockUntil =
      (if 5 ≤ u.loginAttempts + 1 ∧ u.isLocked now = false then some (now + 7200000)
       else u.security.lockUntil) := by
  have hexp : u.lockExpired now = false := by
    unfold User.lockExpired
    cases hl : u.security.lockUntil with
    | none => rfl
    | some l => simpa using h l hl
  have hs := incLoginAttempts_apply_of_not_expired u now hexp
  refine ⟨?_, by rw [hs], by rw [hs]⟩
  unfold User.incLoginAttempts
  rw [if_neg (by simp [hexp])]
  dsimp only
  by_cases hc : 5 ≤ u.loginAttempts + 1 ∧ u.isLocked now = false
  · have hb : (decide (u.loginAttempts + 1 ≥ 5) && !u.isLocked now) = true := by
      simp [hc.1, hc.2]
    rw [if_pos hb, if_pos hc]
    simp
  · have hb : ¬ (decide (u.loginAttempts + 1 ≥ 5) && !u.isLocked now) = true := by
      intro hb
      apply hc
      simpa using hb
    rw [if_neg hb, if_neg hc]

/-- C8 at the sample account `dan` at time 9000, the instant its lock ends. -/
theorem incLoginAttempts_increments_witness :
    dan.incLoginAttempts 9000 =
      { incLoginAttempts := some 1, setLockUntil := some (9000 + 7200000) } ∧
    ((dan.incLoginAttempts 9000).apply dan).security.loginAttempts = some 6 ∧
    ((dan.incLoginAttempts 9000).apply dan).security.lockUntil = some 7209000 :=
  incLoginAttempts_increments dan 9000 (by decide)

/-- C9: for an account whose `lockUntil` is set and earlier than `now`, the
update of `incLoginAttempts` sets `security.loginAttempts` to 1 and removes
`security.lockUntil`, whatever the counter was, so that the stored account is
not locked at any time afterwards. -/
theorem incLoginAttempts_restarts (u : User) (now l : Time)
    (hl : u.security.lockUntil = some l) (hpast : l < now) :
    u.incLoginAttempts now = { setLoginAttempts := some 1, unsetLockUntil := true } ∧
    ((u.incLoginAttempts now).apply u).security = { loginAttempts := some 1, lockUntil := none } ∧
    ∀ t, ((u.incLoginAttempts now).apply u).isLocked t = false := by
  have hexp : u.lockExpired now = true := by simp [User.lockExpired, hl, hpast]
  have hupd : u.incLoginAttempts now = { setLoginAttempts := some 1, unsetLockUntil := true } := by
    simp [User.incLoginAttempts, hexp]
  rw [hupd]
  refine ⟨rfl, rfl, fun t => rfl⟩

/-- C9 at the sample account `dan` at time 9001, after its lock ended. -/
theorem incLoginAttempts_restarts_witness :
    dan.loginAttempts = 5 ∧
    (dan.incLoginAttempts 9001 = { setLoginAttempts := some 1, unsetLockUntil := true } ∧
      ((dan.incLoginAttempts 9001).apply dan).security =
        { loginAttempts := some 1, lockUntil := none } ∧
      ∀ t, ((dan.incLoginAttempts 9001).apply dan).isLocked t = false) :=
  ⟨by decide, incLoginAttempts_restarts dan 9001 9000 rfl (by decide)⟩

/-- The claim C7 as stated fails: for the account `cat` (counter 0, a lock that
ran out at time 100) `findByCredentials` succeeds at time 200 and the stored
account still has `lockUntil = 100`. -/
theorem findByCredentials_keeps_expired_lock :
    (findByCredentials sampleCompare sampleDb "c@x.com" "secret" 200).outcome =
      .ok { cat with lastActive := 200 } ∧
    ((findByCredentials sampleCompare sampleDb "c@x.com" "secret" 200).db.findById 3).map
      (fun v => v.security.lockUntil) = some (some 100) := by
  constructor
  · rfl
  · decide

/-- C7 (amended): when `findByCredentials` succeeds, the stored account
afterwards has `loginAttempts` absent or 0, and has no `lockUntil` provided
the stored counter was greater than 0 or `lockUntil` was already absent. -/
theorem findByCredentials_success_resets (bcryptCompare : String → String → Bool) (db : Db)
    (email password : String) (now : Time) (v : User) (hdb : db.uniqueIds)
    (hok : (findByCredentials bcryptCompare db email password now).outcome = .ok v) :
    ∃ u w, db.findActiveByEmail email = some u ∧ v._id = u._id ∧
      (findByCredentials bcryptCompare db email password now).db.findById v._id = some w ∧
      (w.security.loginAttempts = none ∨ w.security.loginAttempts = some 0) ∧
      (0 < u.loginAttempts ∨ u.security.lockUntil = none → w.security.lockUntil = none) := by
  unfold findByCredentials at hok ⊢
  cases hu : db.findActiveByEmail email with
  | none => simp [hu] at hok
  | some u =>
    simp only [hu] at hok ⊢
    cases hl : u.isLocked now with
    | true => simp [hl] at hok
    | false =>
      simp only [hl, Bool.false_eq_true, if_false] at hok ⊢
      cases hc : bcryptCompare password u.password with
      | false => simp [hc] at hok
      | true =>
        simp only [hc, Bool.not_true, Bool.false_eq_true, if_false, Except.ok.injEq] at hok ⊢
        have hv : v._id = u._id := by rw [← hok]
        have hfind : db.findById u._id = some u := Db.findById_of_find? hdb _ hu
        rw [hv, Db.findById_saveLastActive]
        by_cases hpos : 0 < u.loginAttempts
        · have hd : decide (u.loginAttempts > 0) = true := by simpa using hpos
          simp only [hd, if_true]
          rw [Db.findById_updateOne, hfind]
          exact ⟨u, _, rfl, rfl, rfl, Or.inl rfl, fun _ => rfl⟩
        · have hd : decide (u.loginAttempts > 0) = false := by simpa using hpos
          simp only [hd, Bool.false_eq_true, if_false]
          rw [hfind]
          refine ⟨u, _, rfl, rfl, rfl, ?_, ?_⟩
          · have hz : u.security.loginAttempts.getD 0 = 0 := by
              have : u.loginAttempts = 0 := by omega
              simpa [User.loginAttempts] using this
            show u.security.loginAttempts = none ∨ u.security.loginAttempts = some 0
            cases ha : u.security.loginAttempts with
            | none => exact Or.inl rfl
            | some a =>
              rw [ha] at hz
              exact Or.inr (by simpa using hz)
          · intro h
            rcases h with h | h
            · exact absurd h hpos
            · exact h

/-- C7 (amended) at the sample account `dan` (counter 5, lock ended at 9000)
with the right password at time 9001: the call succeeds, `resetLoginAttempts`
is issued, and the stored account has neither counter nor lock. -/
theorem findByCredentials_success_resets_witness :
    dan.loginAttempts = 5 ∧ dan.security.lockUntil = some 9000 ∧
    (findByCredentials sampleCompare sampleDb "d@x.com" "secret" 9001).effects =
      [.comparePassword, .updateOne 4 dan.resetLoginAttempts, .save 4] ∧
    ((findByCredentials sampleCompare sampleDb "d@x.com" "secret" 9001).db.findById 4).map
      User.security = some { loginAttempts := none, lockUntil := none } ∧
    ∃ u w, sampleDb.findActiveByEmail "d@x.com" = some u ∧
      ({ dan with lastActive := 9001 } : User)._id = u._id ∧
      (findByCredentials sampleCompare sampleDb "d@x.com" "secret" 9001).db.findById
        ({ dan with lastActive := 9001 } : User)._id = some w ∧
      (w.security.loginAttempts = none ∨ w.security.loginAttempts = some 0) ∧
      (0 < u.loginAttempts ∨ u.security.lockUntil = none → w.security.lockUntil = none) :=
  ⟨by decide, by decide, by decide, by decide,
    findByCredentials_success_resets sampleCompare sampleDb "d@x.com" "secret" 9001
      { dan with lastActive := 9001 } (by decide) rfl⟩

/-- C6 at its failing input: after five requests to `login` for `a@x.com` with a
wrong password, each answered 401, the account's counter is still 0 and it has
no lock, and a sixth request with the right password is answered 200 with a
token. -/
theorem login_sixth_request_succeeds :
    (login sampleCompare sampleSign sampleDb 1 [] annWrong).1.status = 401 ∧
    ((loginCalls sampleCompare sampleSign sampleDb
        [(annWrong, 1), (annWrong, 2), (annWrong, 3), (annWrong, 4), (annWrong, 5)]).findById 1).map
      User.security = some { loginAttempts := some 0, lockUntil := none } ∧
    (login sampleCompare sampleSign
      (loginCalls sampleCompare sampleSign sampleDb
        [(annWrong, 1), (annWrong, 2), (annWrong, 3), (annWrong, 4), (annWrong, 5)])
      6 [] annRight).1 =
      { status := 200, success := true, message := "Login successful", token := some "jwt-1",
        user := some { ann with lastActive := 6 } } := by
  decide

/-- C10 at its failing input: a request to `login` with the email and the right
password of the deactivated account `bob` is answered 200 with a token. -/
theorem login_inactive_account_succeeds :
    bob.isActive = false ∧
    (login sampleCompare sampleSign sampleDb 10 [] bobRight).1 =
      { status := 200, success := true, message := "Login successful", token := some "jwt-2",
        user := some { bob with lastActive := 10 } } := by
  decide

/-! ## The `login` and `register` controllers -/

/-- C11 at its failing input: for an email no account has and for the email of
`ann` with a wrong password, `login` answers 401 both times, but with the
messages `Invalid credentials - user not found` and `Invalid credentials`, so
the two responses differ; `User.findByCredentials` throws the same
`Invalid credentials` for both requests. -/
theorem login_unknown_email_differs :
    sampleDb.findByEmail "nobody@x.com" = none ∧
    sampleDb.findByEmail "a@x.com" = some ann ∧
    sampleCompare "wrong" ann.password = false ∧
    (login sampleCompare sampleSign sampleDb 1 [] nobodyBody).1 =
      { status := 401, success := false, message := "Invalid credentials - user not found" } ∧
    (login sampleCompare sampleSign sampleDb 1 [] annWrong).1 =
      { status := 401, success := false, message := "Invalid credentials" } ∧
    (login sampleCompare sampleSign sampleDb 1 [] nobodyBody).1 ≠
      (login sampleCompare sampleSign sampleDb 1 [] annWrong).1 ∧
    (findByCredentials sampleCompare sampleDb "nobody@x.com" "secret" 1).outcome =
      .error "Invalid credentials" ∧
    (findByCredentials sampleCompare sampleDb "a@x.com" "wrong" 1).outcome =
      .error "Invalid credentials" :=
  ⟨by decide, by decide, by decide, by decide, by decide, by decide, rfl, rfl⟩

/-- C12 at its failing input: the email of `ann` with a leading blank equals
her stored email once lowercased and trimmed, yet `register` does not answer
400: its lookup misses, `User.create` is rejected by the unique index, and the
answer is 500 with the collection unchanged. -/
theorem register_padded_duplicate_email :
    sampleDb.findByEmail (jsTrim (jsToLowerCase " a@x.com")) = some ann ∧
    sampleDb.findByEmail (jsToLowerCase " a@x.com") = none ∧
    register sampleHash demoSign sampleDb 1730000001234 annAgain =
      ({ status := 500, success := false, message := "Server error during registration" },
       sampleDb) := by
  decide

/-- The claim C13 as stated fails: a request to the register route with a
password of four characters is answered 201 and the account is stored. -/
theorem postRegister_accepts_four_characters :
    jsLength "abcd" < 6 ∧
    (postRegister sampleNormalize sampleHash demoSign sampleDb 1730000001234 eveShort).1.status =
      201 ∧
    ((postRegister sampleNormalize sampleHash demoSign sampleDb 1730000001234 eveShort).2.findByEmail
        "eve@x.com").map User.password = some "hash:abcd" := by
  decide

/-- C13 (amended): a request to the register route whose password is missing
or has fewer than 3 characters is answered 400 and the collection is left as
it was. -/
theorem postRegister_short_password (normalizeEmail : String → Option String)
    (bcryptHash : String → Nat → String) (generateToken : Nat → String) (db : Db) (now : Time)
    (body : RegisterBody) (h : ∀ p, body.password = some p → jsLength p < 3) :
    (postRegister normalizeEmail bcryptHash generateToken db now body).1.status = 400 ∧
    (postRegister normalizeEmail bcryptHash generateToken db now body).2 = db := by
  unfold postRegister register registerSanitize
  by_cases hreq : (!truthy (Option.map jsTrim body.name) ||
      !truthy (body.email.bind normalizeEmail) || !truthy body.password) = true
  · simp only [hreq, if_true, and_self]
  · simp only [hreq, Bool.false_eq_true, if_false]
    cases hp : body.password with
    | none => simp [hp, truthy] at hreq
    | some p =>
      have hlt := h p hp
      simp [hlt]

/-- C13 (amended) at a password of two characters. -/
theorem postRegister_short_password_witness :
    (postRegister sampleNormalize sampleHash demoSign sampleDb 1730000001234 eveTiny).1.status =
      400 ∧
    (postRegister sampleNormalize sampleHash demoSign sampleDb 1730000001234 eveTiny).2 =
      sampleDb :=
  postRegister_short_password sampleNormalize sampleHash demoSign sampleDb 1730000001234 eveTiny
    (by decide)

/-- C14 at its failing input: a request to the register route with the role
`admin` is answered 201 and an account with the role `admin` is stored. -/
theorem postRegister_creates_admin :
    (postRegister sampleNormalize sampleHash demoSign sampleDb 1730000001234 malAdmin).1.status =
      201 ∧
    ((postRegister sampleNormalize sampleHash demoSign sampleDb 1730000001234 malAdmin).1.user.map
        User.role) = some "admin" ∧
    ((postRegister sampleNormalize sampleHash demoSign sampleDb 1730000001234 malAdmin).2.findByEmail
        "mal@x.com").map User.role = some "admin" := by
  decide

/-! ## Saving: helper lemmas -/

/-- A rewrite that keeps `_id` and the value of `g` keeps what `findById`
reports of `g`. -/
theorem Db.findById_modifyById_map {α : Type} (db : Db) (id₁ id : Nat) (f : User → User)
    (g : User → α) (hf : ∀ x, (f x)._id = x._id) (hg : ∀ x, g (f x) = g x) :
    (Db.findById (db.modifyById id₁ f) id).map g = (db.findById id).map g := by
  induction db with
  | nil => rfl
  | cons x rest ih =>
    unfold Db.findById at ih ⊢
    by_cases hx : x._id = id₁
    · have hm : Db.modifyById (x :: rest) id₁ f = f x :: rest := by
        simp [Db.modifyById, hx]
      rw [hm]
      by_cases hxi : x._id = id
      · have h₁ : ((f x)._id == id) = true := by simp [hf, hxi]
        have h₂ : (x._id == id) = true := by simp [hxi]
        simp only [List.find?_cons, h₁, h₂, Option.map_some', hg]
      · have h₁ : ((f x)._id == id) = false := by simp [hf, hxi]
        have h₂ : (x._id == id) = false := by simp [hxi]
        simp only [List.find?_cons, h₁, h₂]
    · have hm : Db.modifyById (x :: rest) id₁ f = x :: Db.modifyById rest id₁ f := by
        simp [Db.modifyById, hx]
      rw [hm]
      by_cases hxi : x._id = id
      · have h₂ : (x._id == id) = true := by simp [hxi]
        simp only [List.find?_cons, h₂]
      · have h₂ : (x._id == id) = false := by simp [hxi]
        simp only [List.find?_cons, h₂, ih]

theorem preSavePassword_of_unmodified (bcryptHash : String → Nat → String) (now : Time)
    (d : Doc) (h : d.passwordModified = false) : preSavePassword bcryptHash now d = d := by
  simp [preSavePassword, h]

theorem Doc.writeTo_id (d : Doc) (stored : User) : (d.writeTo stored)._id = stored._id := rfl

/-- The write of `lastActive` made by `login`, `protect` and `findByCredentials`
is the `save` of a document on which only `lastActive` is modified. -/
theorem Db.saveLastActive_eq_save (bcryptHash : String → Nat → String) (t now : Time)
    (db : Db) (u : User) :
    db.saveLastActive u._id now =
      Db.save bcryptHash t db
        { user := { u with lastActive := now }, lastActiveModified := true } := by
  unfold Db.saveLastActive Db.save
  simp only [preSavePassword, Bool.not_false, if_true, Bool.false_eq_true, if_false]
  congr 1

/-- With unique ids, a filter that no other document satisfies finds the
rewritten document or nothing. -/
theorem Db.find?_modifyById_unique {db : Db} (hdb : db.uniqueIds) (q : User → Bool)
    (f : User → User) {id : Nat} {u : User} (hu : db.findById id = some u)
    (hq : ∀ v ∈ db, v._id ≠ id → q v = false) :
    List.find? q (db.modifyById id f) = if q (f u) then some (f u) else none := by
  induction db with
  | nil => simp [Db.findById] at hu
  | cons x rest ih =>
    unfold Db.uniqueIds at hdb
    simp only [List.map_cons, List.nodup_cons] at hdb
    by_cases hx : x._id = id
    · have hxu : x = u := by
        simpa [Db.findById, List.find?_cons, hx] using hu
      subst hxu
      have hrest : ∀ v ∈ rest, q v = false := by
        intro v hv
        apply hq v (List.mem_cons_of_mem _ hv)
        intro hEq
        exact hdb.1 (by rw [hx, ← hEq]; exact List.mem_map_of_mem User._id hv)
      have hnone : List.find? q rest = none := by
        rw [List.find?_eq_none]
        intro v hv
        simp [hrest v hv]
      by_cases hqf : q (f x) = true
      · simp [Db.modifyById, hx, List.find?_cons, hqf]
      · simp [Db.modifyById, hx, List.find?_cons, hqf, hnone]
    · have hqx : q x = false := hq x (List.mem_cons_self _ _) hx
      have hu₁ : Db.findById rest id = some u := by
        have hb : (x._id == id) = false := by simpa using hx
        simpa [Db.findById, List.find?_cons, hb] using hu
      have := ih hdb.2 hu₁ (fun v hv => hq v (List.mem_cons_of_mem _ hv))
      simp [Db.modifyById, hx, List.find?_cons, hqx, this]

/-- What `User.create` stores when it succeeds: the new document, at the end of
the collection, with the hash of the password it was given. -/
theorem User.create_ok {bcryptHash : String → Nat → String} {now : Time} {db db₁ : Db}
    {fields : NewUser} {u : User} (h : User.create bcryptHash now db fields = .ok (u, db₁)) :
    db₁ = db ++ [u] ∧ u.password = bcryptHash fields.password 12 := by
  unfold User.create at h
  dsimp only at h
  split at h
  · exact absurd h (by simp)
  · split at h
    · exact absurd h (by simp)
    · split at h
      · exact absurd h (by simp)
      · simp only [Except.ok.injEq, Prod.mk.injEq] at h
        obtain ⟨h₁, h₂⟩ := h
        subst h₁
        subst h₂
        exact ⟨rfl, rfl⟩

/-- A `register` answered 201 appended one account, whose stored password is
the hash of the password sent. -/
theorem register_stores_hash (bcryptHash : String → Nat → String)
    (generateToken : Nat → String) (db : Db) (now : Time) (body : RegisterBody)
    (h : (register bcryptHash generateToken db now body).1.status = 201) :
    ∃ u, (register bcryptHash generateToken db now body).2 = db ++ [u] ∧
      u.password = bcryptHash (body.password.getD "") 12 := by
  by_cases h₁ : (!truthy body.name || !truthy body.email || !truthy body.password) = true
  · simp [register, h₁] at h
  · by_cases h₂ : jsLength (body.password.getD "") < 3
    · simp [register, h₁, h₂] at h
    · cases h₃ : db.findByEmail (jsToLowerCase (body.email.getD "")) with
      | some x => simp [register, h₁, h₂, h₃] at h
      | none =>
        unfold register at h ⊢
        simp only [h₁, h₂, h₃, Bool.false_eq_true, if_false] at h ⊢
        generalize hc : User.create bcryptHash now db _ = r at h ⊢
        cases r with
        | error e => simp at h
        | ok r =>
          obtain ⟨u, db₁⟩ := r
          obtain ⟨hdb, hpw⟩ := User.create_ok hc
          exact ⟨u, hdb, hpw⟩

/-! ## Saving: the claim -/

/-- C15: the pre-save hook replaces `password` by `bcrypt.hash(password, 12)`
when the path is modified and returns the document as it is when it is not;
`save` stores what the hook returns: a new document with a modified password
is inserted with the hash, an existing one has its stored password replaced
by the hash, and with `password` unmodified every stored password stays as it
was.  `register` and `resetPassword` store the hash of the password sent; the
saves of `login` and `protect` are saves with `password` unmodified, and both
controllers leave every stored password as it was. -/
theorem preSave_hashes_iff_modified (bcryptHash : String → Nat → String) (now : Time)
    (d : Doc) :
    (d.passwordModified = true →
      (preSavePassword bcryptHash now d).user.password = bcryptHash d.user.password 12) ∧
    (d.passwordModified = false → preSavePassword bcryptHash now d = d) ∧
    (∀ (db : Db), d.isNew = true → d.passwordModified = true →
      ∃ stored, Db.save bcryptHash now db d = db ++ [stored] ∧
        stored.password = bcryptHash d.user.password 12) ∧
    (∀ (db : Db), d.isNew = false → d.passwordModified = true →
      (Db.findById (Db.save bcryptHash now db d) d.user._id).map User.password =
        (db.findById d.user._id).map (fun _ => bcryptHash d.user.password 12)) ∧
    (∀ (db : Db) (id : Nat), d.isNew = false → d.passwordModified = false →
      (Db.findById (Db.save bcryptHash now db d) id).map User.password =
        (db.findById id).map User.password) ∧
    (∀ (generateToken : Nat → String) (db : Db) (body : RegisterBody),
      (register bcryptHash generateToken db now body).1.status = 201 →
      ∃ u, (register bcryptHash generateToken db now body).2 = db ++ [u] ∧
        u.password = bcryptHash (body.password.getD "") 12) ∧
    (∀ (sha256 : String → String) (generateToken : Nat → String) (db : Db) (token : String)
        (p : Option String) (u : User), db.uniqueIds →
      db.find? (resetFilter (sha256 token) now) = some u → passwordValid p = true →
      (Db.findById (resetPassword sha256 bcryptHash generateToken db now token p).2 u._id).map
        User.password = some (bcryptHash (p.getD "") 12)) ∧
    (∀ (db : Db) (u : User) (t : Time),
      db.saveLastActive u._id t =
        Db.save bcryptHash now db
          { user := { u with lastActive := t }, lastActiveModified := true }) ∧
    (∀ (bcryptCompare : String → String → Bool) (generateToken : Nat → String) (db : Db)
        (t : Time) (errors : List String) (body : LoginBody) (id : Nat),
      (Db.findById (login bcryptCompare generateToken db t errors body).2 id).map User.password =
        (db.findById id).map User.password) ∧
    (∀ (jwtVerify : String → Option Nat) (db : Db) (t : Time) (req : Request) (id : Nat),
      (Db.findById (protect jwtVerify db t req).db id).map User.password =
        (db.findById id).map User.password) := by
  have hhook : d.passwordModified = true →
      (preSavePassword bcryptHash now d).user.password = bcryptHash d.user.password 12 := by
    intro h
    unfold preSavePassword
    simp only [h, Bool.not_true, Bool.false_eq_true, if_false]
    split <;> rfl
  have hflag : d.passwordModified = true →
      (preSavePassword bcryptHash now d).passwordModified = true := by
    intro h
    unfold preSavePassword
    simp only [h, Bool.not_true, Bool.false_eq_true, if_false]
    split <;> simp [h]
  refine ⟨hhook, preSavePassword_of_unmodified bcryptHash now d, ?_, ?_, ?_, ?_, ?_, ?_, ?_, ?_⟩
  · intro db hnew hmod
    refine ⟨(preSavePassword bcryptHash now d).user, ?_, hhook hmod⟩
    simp [Db.save, hnew]
  · intro db hnew hmod
    unfold Db.save
    simp only [hnew, Bool.false_eq_true, if_false]
    rw [Db.findById_modifyById db d.user._id (preSavePassword bcryptHash now d).writeTo
      (Doc.writeTo_id _)]
    cases db.findById d.user._id with
    | none => rfl
    | some x => simp [Doc.writeTo, hflag hmod, hhook hmod]
  · intro db id hnew hmod
    unfold Db.save
    rw [preSavePassword_of_unmodified bcryptHash now d hmod]
    simp only [hnew, Bool.false_eq_true, if_false]
    refine Db.findById_modifyById_map db d.user._id id d.writeTo User.password
      (fun _ => rfl) ?_
    intro x
    simp [Doc.writeTo, hmod]
  · intro generateToken db body h
    exact register_stores_hash bcryptHash generateToken db now body h
  · intro sha256 generateToken db token p u hdb hfind hp
    have hid : db.findById u._id = some u := Db.findById_of_find? hdb _ hfind
    have hdb₂ : (resetPassword sha256 bcryptHash generateToken db now token p).2 =
        db.modifyById u._id
          (preSavePassword bcryptHash now (resetDoc u (p.getD ""))).writeTo := by
      simp [resetPassword, hfind, hp, Db.save, resetDoc]
    rw [hdb₂, Db.findById_modifyById _ _ _ (Doc.writeTo_id _), hid]
    simp [Doc.writeTo, preSavePassword, resetDoc]
  · intro db u t
    exact Db.saveLastActive_eq_save bcryptHash now t db u
  · intro bcryptCompare generateToken db t errors body id
    have hsave : ∀ (i : Nat),
        (Db.findById (db.saveLastActive i t) id).map User.password =
          (db.findById id).map User.password := fun i =>
      Db.findById_modifyById_map db i id (fun u => { u with lastActive := t }) User.password
        (fun _ => rfl) (fun _ => rfl)
    unfold login
    dsimp only
    split
    · rfl
    · split
      · rfl
      · split
        · rfl
        · split
          · rfl
          · exact hsave _
  · intro jwtVerify db t req id
    have hsave : ∀ (i : Nat),
        (Db.findById (db.saveLastActive i t) id).map User.password =
          (db.findById id).map User.password := fun i =>
      Db.findById_modifyById_map db i id (fun u => { u with lastActive := t }) User.password
        (fun _ => rfl) (fun _ => rfl)
    unfold protect
    dsimp only
    split
    · rfl
    · split
      · rfl
      · split
        · rfl
        · split
          · rfl
          · exact hsave _

/-- C15 at sample documents: the hook hashes a modified password; the
registration of `eve` with the password `abcd` appends an account that stores
`hash:abcd`; a reset of `ann` stores the hash of the new password; and a login
of `ann` leaves her stored password as it was. -/
theorem preSave_hashes_iff_modified_witness :
    (preSavePassword sampleHash 5
        { user := { ann with password := "newpass" }, passwordModified := true }).user.password =
      sampleHash "newpass" 12 ∧
    (∃ u, (register sampleHash demoSign sampleDb 5 eveShort).2 = sampleDb ++ [u] ∧
      u.password = sampleHash "abcd" 12) ∧
    (Db.findById
        (Db.save sampleHash 5 sampleDb
          { user := { ann with password := "newpass" }, passwordModified := true }) 1).map
      User.password = some (sampleHash "newpass" 12) ∧
    (Db.findById (login sampleCompare sampleSign sampleDb 6 [] annRight).2 1).map User.password =
      (sampleDb.findById 1).map User.password :=
  ⟨(preSave_hashes_iff_modified sampleHash 5
      { user := { ann with password := "newpass" }, passwordModified := true }).1 rfl,
    (preSave_hashes_iff_modified sampleHash 5 { user := ann }).2.2.2.2.2.1
      demoSign sampleDb eveShort (by decide),
    (preSave_hashes_iff_modified sampleHash 5
      { user := { ann with password := "newpass" }, passwordModified := true }).2.2.2.1
      sampleDb rfl rfl,
    (preSave_hashes_iff_modified sampleHash 5 { user := ann }).2.2.2.2.2.2.2.2.1
      sampleCompare sampleSign sampleDb 6 [] annRight 1⟩

/-! ## The password reset flow: helper lemmas -/

theorem forgotPassword_of_found (sha256 : String → String)
    (bcryptHash : String → Nat → String) (r : String) (db : Db) (t : Time) (e : String)
    (u : User) (hu : db.findByEmail (jsToLowerCase e) = some u) :
    forgotPassword sha256 bcryptHash r {} db t (some e) =
      (.responded { status := 200, success := true, message := "Password reset email sent"
                    resetToken := some r },
       db.modifyById u._id (setResetFields (sha256 r) (t + 600000))) := by
  simp only [forgotPassword, hu, getResetPasswordToken, Bool.false_eq_true, if_false, Db.save,
    preSavePassword, Bool.not_false, if_true]
  congr 1

theorem resetFilter_of_other_token (hash : String) (now : Time) (v : User)
    (h : v.resetPasswordToken ≠ some hash) : resetFilter hash now v = false := by
  simp [resetFilter, h]

/-- The lookup of `resetPassword` after `forgotPassword` stored the hash of `r`
for `u` at time `t`, when no other account stores that hash. -/
theorem find?_resetFilter_after_forgot (hash : String) (db : Db) (t t' : Time) (u : User)
    (hdb : db.uniqueIds) (hu : db.findById u._id = some u)
    (hfresh : ∀ v ∈ db, v._id ≠ u._id → v.resetPasswordToken ≠ some hash) :
    List.find? (resetFilter hash t') (db.modifyById u._id (setResetFields hash (t + 600000))) =
      if t' < t + 600000 then some (setResetFields hash (t + 600000) u) else none := by
  rw [Db.find?_modifyById_unique hdb _ _ hu
    (fun v hv hne => resetFilter_of_other_token hash t' v (hfresh v hv hne))]
  by_cases h : t' < t + 600000
  · simp [resetFilter, setResetFields, h]
  · simp [resetFilter, setResetFields, h]

/-! ## The password reset flow: the claims -/

/-- C16: when `forgotPassword` at time `t` stores the hash of the fresh token
`r` for the account `u` (no other account stores that hash), `resetPassword`
with `r` at time `t'` finds the account when `t' < t + 600000`, answering 200
with a token for `u` if the new password passes the schema, and answers 400
when `t' ≥ t + 600000`. -/
theorem reset_token_window (sha256 : String → String) (bcryptHash : String → Nat → String)
    (generateToken : Nat → String) (db : Db) (t t' : Time) (r e : String) (u : User)
    (p : Option String) (hdb : db.uniqueIds)
    (hu : db.findByEmail (jsToLowerCase e) = some u)
    (hfresh : ∀ v ∈ db, v._id ≠ u._id → v.resetPasswordToken ≠ some (sha256 r)) :
    (forgotPassword sha256 bcryptHash r {} db t (some e)).1 =
      .responded { status := 200, success := true, message := "Password reset email sent"
                   resetToken := some r } ∧
    (t' < t + 600000 → passwordValid p = true →
      (resetPassword sha256 bcryptHash generateToken
        (forgotPassword sha256 bcryptHash r {} db t (some e)).2 t' r p).1.status = 200 ∧
      (resetPassword sha256 bcryptHash generateToken
        (forgotPassword sha256 bcryptHash r {} db t (some e)).2 t' r p).1.token =
        some (generateToken u._id)) ∧
    (t' < t + 600000 →
      (resetPassword sha256 bcryptHash generateToken
        (forgotPassword sha256 bcryptHash r {} db t (some e)).2 t' r p).1.status ≠ 400) ∧
    (t + 600000 ≤ t' →
      (resetPassword sha256 bcryptHash generateToken
        (forgotPassword sha256 bcryptHash r {} db t (some e)).2 t' r p).1 =
        { status := 400, success := false, message := "Invalid or expired reset token" }) := by
  have hid : db.findById u._id = some u := Db.findById_of_find? hdb _ hu
  have hfind := find?_resetFilter_after_forgot (sha256 r) db t t' u hdb hid hfresh
  rw [forgotPassword_of_found sha256 bcryptHash r db t e u hu]
  refine ⟨rfl, ?_, ?_, ?_⟩
  · intro hlt hp
    simp [resetPassword, hfind, hlt, hp]
    rfl
  · intro hlt
    simp only [resetPassword, hfind, hlt, if_true]
    cases passwordValid p <;> simp
  · intro hge
    have hnlt : ¬ t' < t + 600000 := not_lt.mpr hge
    simp only [resetPassword, hfind, hnlt, if_false]

/-- C16 at the sample account `ann`: a token requested at time 1000 is accepted
at 600999 and refused at 601000. -/
theorem reset_token_window_witness :
    ((resetPassword sampleSha sampleHash demoSign
        (forgotPassword sampleSha sampleHash "r4nd0m" {} sampleDb 1000 (some "A@x.com")).2
        600999 "r4nd0m" (some "newpass")).1.status = 200 ∧
      (resetPassword sampleSha sampleHash demoSign
        (forgotPassword sampleSha sampleHash "r4nd0m" {} sampleDb 1000 (some "A@x.com")).2
        600999 "r4nd0m" (some "newpass")).1.token = some (demoSign ann._id)) ∧
    (resetPassword sampleSha sampleHash demoSign
        (forgotPassword sampleSha sampleHash "r4nd0m" {} sampleDb 1000 (some "A@x.com")).2
        601000 "r4nd0m" (some "newpass")).1 =
      { status := 400, success := false, message := "Invalid or expired reset token" } :=
  ⟨(reset_token_window sampleSha sampleHash demoSign sampleDb 1000 600999 "r4nd0m" "A@x.com" ann
      (some "newpass") (by decide) (by decide) (by decide)).2.1 (by decide) (by decide),
    (reset_token_window sampleSha sampleHash demoSign sampleDb 1000 601000 "r4nd0m" "A@x.com" ann
      (some "newpass") (by decide) (by decide) (by decide)).2.2.2 (by decide)⟩

/-- C17: after a `resetPassword` answered 200, the stored account has neither
`resetPasswordToken` nor `resetPasswordExpire`, and a second `resetPassword`
with the same token, at any time and with any password, is answered 400,
provided no two accounts store the hash of the token. -/
theorem reset_token_single_use (sha256 : String → String)
    (bcryptHash : String → Nat → String) (generateToken : Nat → String) (db : Db)
    (now now' : Time) (token : String) (p p' : Option String) (hdb : db.uniqueIds)
    (hok : (resetPassword sha256 bcryptHash generateToken db now token p).1.status = 200)
    (hother : ∀ v ∈ db, ∀ w ∈ db, v.resetPasswordToken = some (sha256 token) →
      w.resetPasswordToken = some (sha256 token) → v._id = w._id) :
    (∃ u w, db.find? (resetFilter (sha256 token) now) = some u ∧
      Db.findById (resetPassword sha256 bcryptHash generateToken db now token p).2 u._id =
        some w ∧
      w.resetPasswordToken = none ∧ w.resetPasswordExpire = none) ∧
    (resetPassword sha256 bcryptHash generateToken
      (resetPassword sha256 bcryptHash generateToken db now token p).2 now' token p').1 =
      { status := 400, success := false, message := "Invalid or expired reset token" } := by
  cases hfind : db.find? (resetFilter (sha256 token) now) with
  | none => simp [resetPassword, hfind] at hok
  | some u =>
    cases hp : passwordValid p with
    | false => simp [resetPassword, hfind, hp] at hok
    | true =>
      have hid : db.findById u._id = some u := Db.findById_of_find? hdb _ hfind
      have hmem : u ∈ db := List.mem_of_find?_eq_some hfind
      have hutok : u.resetPasswordToken = some (sha256 token) := by
        have := List.find?_some hfind
        simp only [resetFilter, Bool.and_eq_true, beq_iff_eq] at this
        exact this.1
      have hdb₂ : (resetPassword sha256 bcryptHash generateToken db now token p).2 =
          db.modifyById u._id
            (preSavePassword bcryptHash now (resetDoc u (p.getD ""))).writeTo := by
        simp [resetPassword, hfind, hp, Db.save, resetDoc]
      have hw : Db.findById
          (db.modifyById u._id (preSavePassword bcryptHash now (resetDoc u (p.getD ""))).writeTo)
          u._id =
          some ((preSavePassword bcryptHash now (resetDoc u (p.getD ""))).writeTo u) := by
        rw [Db.findById_modifyById _ _ _ (Doc.writeTo_id _), hid]
        rfl
      rw [hdb₂]
      constructor
      · refine ⟨u, _, rfl, hw, ?_, ?_⟩
        · simp [Doc.writeTo, preSavePassword, resetDoc]
        · simp [Doc.writeTo, preSavePassword, resetDoc]
      · have hq : ∀ v ∈ db, v._id ≠ u._id → resetFilter (sha256 token) now' v = false := by
          intro v hv hne
          apply resetFilter_of_other_token
          intro hv'
          exact hne (hother v hv u hmem hv' hutok)
        have hnone := Db.find?_modifyById_unique hdb (resetFilter (sha256 token) now')
          (preSavePassword bcryptHash now (resetDoc u (p.getD ""))).writeTo hid hq
        have hqf : resetFilter (sha256 token) now'
            ((preSavePassword bcryptHash now (resetDoc u (p.getD ""))).writeTo u) = false := by
          simp [resetFilter, Doc.writeTo, preSavePassword, resetDoc]
        rw [hqf] at hnone
        simp only [Bool.false_eq_true, if_false] at hnone
        simp only [resetPassword, hnone]

/-- C17 at the sample account `ann`: the token requested at time 1000 and used
at time 2000 is refused at time 3000. -/
theorem reset_token_single_use_witness :
    (∃ u w,
      List.find? (resetFilter (sampleSha "r4nd0m") 2000)
        (forgotPassword sampleSha sampleHash "r4nd0m" {} sampleDb 1000 (some "a@x.com")).2 =
        some u ∧
      Db.findById (resetPassword sampleSha sampleHash demoSign
        (forgotPassword sampleSha sampleHash "r4nd0m" {} sampleDb 1000 (some "a@x.com")).2
        2000 "r4nd0m" (some "newpass")).2 u._id = some w ∧
      w.resetPasswordToken = none ∧ w.resetPasswordExpire = none) ∧
    (resetPassword sampleSha sampleHash demoSign
      (resetPassword sampleSha sampleHash demoSign
        (forgotPassword sampleSha sampleHash "r4nd0m" {} sampleDb 1000 (some "a@x.com")).2
        2000 "r4nd0m" (some "newpass")).2 3000 "r4nd0m" (some "other")).1 =
      { status := 400, success := false, message := "Invalid or expired reset token" } :=
  reset_token_single_use sampleSha sampleHash demoSign
    (forgotPassword sampleSha sampleHash "r4nd0m" {} sampleDb 1000 (some "a@x.com")).2
    2000 3000 "r4nd0m" (some "newpass") (some "other") (by decide) (by decide) (by decide)

/-! ## Tokens, rate limiting and `forgotPassword` failures -/

/-- C18 at its failing input: `login` answers 200 with the token `jwt-2` for the
deactivated account `bob`, `jwt.verify` returns the id the token was signed
for, and `protect` refuses that token with 401 without attaching an account,
so that `getMe` is not reached. -/
theorem login_token_of_inactive_refused :
    (login sampleCompare sampleSign sampleDb 10 [] bobRight).1.status = 200 ∧
    (login sampleCompare sampleSign sampleDb 10 [] bobRight).1.token = some "jwt-2" ∧
    sampleVerify "jwt-2" = some bob._id ∧
    (protect sampleVerify (login sampleCompare sampleSign sampleDb 10 [] bobRight).2 11
        { authorization := some "Bearer jwt-2" }).response =
      some ⟨401, "Access denied. Account is deactivated."⟩ ∧
    (protect sampleVerify (login sampleCompare sampleSign sampleDb 10 [] bobRight).2 11
        { authorization := some "Bearer jwt-2" }).nextCalled = false ∧
    (protect sampleVerify (login sampleCompare sampleSign sampleDb 10 [] bobRight).2 11
        { authorization := some "Bearer jwt-2" }).req.user = none := by
  decide

/-- The scenario of `test-auth.js` on the sample collection: `register` answers
201 with a token, `protect` lets that token through, and `getMe` answers 200
with the registered email. -/
theorem register_then_getMe_sample :
    (register sampleHash demoSign sampleDb 1730000001234 testUser).1.status = 201 ∧
    (register sampleHash demoSign sampleDb 1730000001234 testUser).1.token = some "jwt.5" ∧
    (protect demoVerify (register sampleHash demoSign sampleDb 1730000001234 testUser).2
        1730000001300 { authorization := some "Bearer jwt.5" }).nextCalled = true ∧
    ((getMe
        (protect demoVerify (register sampleHash demoSign sampleDb 1730000001234 testUser).2
          1730000001300 { authorization := some "Bearer jwt.5" }).db
        (protect demoVerify (register sampleHash demoSign sampleDb 1730000001234 testUser).2
          1730000001300 { authorization := some "Bearer jwt.5" }).req).status = 200) ∧
    ((getMe
        (protect demoVerify (register sampleHash demoSign sampleDb 1730000001234 testUser).2
          1730000001300 { authorization := some "Bearer jwt.5" }).db
        (protect demoVerify (register sampleHash demoSign sampleDb 1730000001234 testUser).2
          1730000001300 { authorization := some "Bearer jwt.5" }).req).user.map User.email =
      some "test@example.com") := by
  decide

/-- C19 at its failing input: `authLimiter` is not among the limiters in front
of the auth routes; it would reject the eleventh of eleven requests in one
window, but eleven requests `POST /api/auth/login` of one client within eleven
milliseconds all reach the controller, which answers each with 401. -/
theorem auth_routes_skip_authLimiter :
    authLimiter ∉ authRouteLimiters ∧
    authLimiter.hits {} (elevenLogins.map Prod.snd) =
      [true, true, true, true, true, true, true, true, true, true, false] ∧
    postLoginStatuses sampleCompare sampleSign (Server.start sampleDb) elevenLogins =
      [401, 401, 401, 401, 401, 401, 401, 401, 401, 401, 401] := by
  decide

/-- C20 at its failing inputs: for a body without an email, for a failing
lookup and for a failing save, `forgotPassword` sends no response: its `catch`
block throws a `ReferenceError`, and the collection is left as it was. -/
theorem forgotPassword_catch_throws :
    forgotPassword sampleSha sampleHash "r4nd0m" {} sampleDb 1000 none =
      (.threw "ReferenceError: user is not defined", sampleDb) ∧
    forgotPassword sampleSha sampleHash "r4nd0m" { lookup := true } sampleDb 1000
        (some "a@x.com") =
      (.threw "ReferenceError: user is not defined", sampleDb) ∧
    forgotPassword sampleSha sampleHash "r4nd0m" { save := true } sampleDb 1000
        (some "a@x.com") =
      (.threw "ReferenceError: user is not defined", sampleDb) := by
  decide

/-! ## The chat assistant -/

set_option maxRecDepth 100000 in
/-- C21 at its failing input: the message of `test-ai-chat.js` contains the
phrase `trouble breathing`, yet `generateIntelligentResponse` finds none of
its `emergencyWords` in it and returns one of the general responses, not the
emergency response. -/
theorem demo_misses_trouble_breathing :
    jsIncludes (jsToLowerCase breathingMessage) "trouble breathing" = true ∧
    isDemoEmergency jsToLowerCase breathingMessage = false ∧
    (∀ random : Fin 4,
      generateIntelligentResponse jsToLowerCase random breathingMessage = generalResponses.getD random.val "" ∧
      generateIntelligentResponse jsToLowerCase random breathingMessage ≠ demoEmergencyResponse) := by
  decide

set_option maxRecDepth 100000 in
/-- C26 at its failing input: `handleChat` counts the message `My dog can't walk`
as an emergency, the check of `generateIntelligentResponse` does not, and the
demo chat answers it with the response of the exercise topic. -/
theorem emergency_checks_disagree :
    isEmergency jsToLowerCase walkMessage = true ∧
    isDemoEmergency jsToLowerCase walkMessage = false ∧
    (handleChat jsToLowerCase [] 1000 [] 1 (some walkMessage) none).1.reply = some emergencyContent ∧
    (∀ random : Fin 4, generateIntelligentResponse jsToLowerCase random walkMessage ≠ demoEmergencyResponse) := by
  decide

/-- C23 at its failing inputs: the slug of `Puppy care tips :)` ends with a
hyphen and the slug of a title that starts with an emoji begins with one. -/
theorem slug_keeps_outer_hyphens :
    newsSlug "Puppy care tips :)" 1730000001234 = "puppy-care-tips-" ∧
    newsSlug "🐶 Puppy care tips" 1730000001234 = "-puppy-care-tips" := by
  decide

/-- C27 at its failing input: an email the schema pattern accepts whose local
part has 26 characters gives a username of 31 characters, `User.create` fails
on the length limit and `register` answers 500. -/
theorem register_long_local_part :
    emailPattern "abcdefghijklmnopqrstuvwxyz@x.com" = true ∧
    jsLength (registerUsername "abcdefghijklmnopqrstuvwxyz@x.com" 1730000001234) = 31 ∧
    register sampleHash demoSign sampleDb 1730000001234 longLocalPart =
      ({ status := 500, success := false, message := "Server error during registration" },
       sampleDb) := by
  decide

/-- C28 at its failing inputs: a `createPost` whose body carries `id: '1'` puts
a second post with the id `1` in the list, which `getPost` then returns in
place of the first; and two `createPost` requests in one millisecond get the
same id. -/
theorem createPost_duplicates_ids :
    (createPosts mockPosts [(1730000001234, "u9", { id := some "1" })]).map Post.id =
      ["1", "1", "2"] ∧
    ((getPost (createPosts mockPosts [(1730000001234, "u9", { id := some "1" })]) "1").1.map
      Post.userId) = some "u9" ∧
    (createPosts mockPosts [(1730000001234, "u8", {}), (1730000001234, "u9", {})]).map Post.id =
      ["1730000001234", "1730000001234", "1", "2"] ∧
    ¬ ((createPosts mockPosts [(1730000001234, "u9", { id := some "1" })]).map Post.id).Nodup := by
  decide

set_option maxRecDepth 100000 in
/-- C29 at its failing input: user 1 starts the session `s1`, which
`getChatSession` finds, and clears it; a further message in `s1` that is no
emergency is answered 200 with the session id `s1`, and `getChatSession` for
user 1 and `s1` then answers 404. -/
theorem cleared_session_not_found :
    (getChatSession chatStarted 1 "s1").status = 200 ∧
    (clearChatSession chatStarted 1 "s1").1.status = 200 ∧
    isEmergency jsToLowerCase "hello again" = false ∧
    (handleChat jsToLowerCase chatCleared 3000 [] 1 (some "hello again") (some "s1")).1.status = 200 ∧
    (handleChat jsToLowerCase chatCleared 3000 [] 1 (some "hello again") (some "s1")).1.sessionId = some "s1" ∧
    (getChatSession (handleChat jsToLowerCase chatCleared 3000 [] 1 (some "hello again") (some "s1")).2 1
      "s1").status = 404 := by
  decide

set_option maxRecDepth 100000 in
/-- The claim C22 as stated fails: a message of user 2 that is not blank and no
emergency, sent with the session id of a session of user 1, is not answered
with `generateDemoResponse`: the save is rejected and the response is the 500
fallback without a reply. -/
theorem handleChat_foreign_session_fails :
    jsLength (jsTrim "hello there") ≠ 0 ∧
    isEmergency jsToLowerCase "hello there" = false ∧
    handleChat jsToLowerCase chatStarted 2000 [] 2 (some "hello there") (some "s1") =
      (chatFallback, chatStarted) ∧
    chatFallback.reply = none := by
  decide

/-! ## Lockout: the invariant -/

theorem LockoutOp.run_invariant (u : User) (op : LockoutOp)
    (h : u.security.lockUntil ≠ none → 5 ≤ u.loginAttempts) :
    (op.run u).security.lockUntil ≠ none → 5 ≤ (op.run u).loginAttempts := by
  cases op with
  | resetLoginAttempts =>
    intro hl
    exact absurd rfl hl
  | incLoginAttempts now =>
    cases hexp : u.lockExpired now with
    | true =>
      have hs : ((u.incLoginAttempts now).apply u).security =
          { loginAttempts := some 1, lockUntil := none } := by
        simp [User.incLoginAttempts, hexp, Update.apply, Update.applySecurity]
      intro hl
      simp only [LockoutOp.run, hs] at hl
      exact absurd rfl hl
    | false =>
      have hs := incLoginAttempts_apply_of_not_expired u now hexp
      have hv : ((u.incLoginAttempts now).apply u).loginAttempts = u.loginAttempts + 1 := by
        simp [User.loginAttempts, hs]
      intro hl
      simp only [LockoutOp.run, hs] at hl
      simp only [LockoutOp.run, hv]
      by_cases hc : 5 ≤ u.loginAttempts + 1 ∧ u.isLocked now = false
      · exact hc.1
      · rw [if_neg hc] at hl
        have := h hl
        omega

theorem runLockoutOps_invariant (ops : List LockoutOp) (u : User)
    (h : u.security.lockUntil ≠ none → 5 ≤ u.loginAttempts) :
    (runLockoutOps u ops).security.lockUntil ≠ none → 5 ≤ (runLockoutOps u ops).loginAttempts := by
  induction ops generalizing u with
  | nil => exact h
  | cons op rest ih => exact ih (op.run u) (LockoutOp.run_invariant u op h)

/-- C25: in every account state reached from an account without a lock (a new
account has counter 0 and no lock) by a sequence of `incLoginAttempts` and
`resetLoginAttempts` calls, at any times, `lockUntil` is set only if
`loginAttempts` is at least 5. -/
theorem lockUntil_only_after_five (u : User) (ops : List LockoutOp)
    (hnl : u.security.lockUntil = none) :
    (runLockoutOps u ops).security.lockUntil ≠ none →
      5 ≤ (runLockoutOps u ops).loginAttempts :=
  runLockoutOps_invariant ops u (fun hl => absurd hnl hl)

/-- C25 at the sample account `ann`: after five failed attempts the lock is set
and the counter is 5. -/
theorem lockUntil_only_after_five_witness :
    ann.loginAttempts = 0 ∧
    (runLockoutOps ann (sampleLockoutOps.take 5)).security.lockUntil = some 7200005 ∧
    ((runLockoutOps ann (sampleLockoutOps.take 5)).security.lockUntil ≠ none →
      5 ≤ (runLockoutOps ann (sampleLockoutOps.take 5)).loginAttempts) :=
  ⟨by decide, by decide, lockUntil_only_after_five ann (sampleLockoutOps.take 5) rfl⟩

/-! ## The emergency check of `handleChat` -/

theorem includesChars_iff (s t : List Char) : includesChars s t = true ↔ t <:+: s := by
  induction s with
  | nil => cases t <;> simp [includesChars]
  | cons c cs ih =>
    simp only [includesChars, Bool.or_eq_true, ih, List.infix_cons_iff,
      List.isPrefixOf_iff_prefix]

/-- The check of `handleChat` holds exactly when the lowercased message contains
one of the keywords as a contiguous part. -/
theorem isEmergency_iff (toLowerCase : String → String) (m : String) :
    isEmergency toLowerCase m = true ↔
      ∃ k ∈ emergencyKeywords, k.data <:+: (toLowerCase m).data := by
  simp only [isEmergency, List.any_eq_true, jsIncludes, includesChars_iff]

/-- Every message the demo check counts as an emergency is one for `handleChat`. -/
theorem isEmergency_of_isDemoEmergency (toLowerCase : String → String) (m : String)
    (h : isDemoEmergency toLowerCase m = true) : isEmergency toLowerCase m = true := by
  simp only [isDemoEmergency, List.any_eq_true] at h
  obtain ⟨w, hw, hin⟩ := h
  simp only [isEmergency, List.any_eq_true]
  have hsub : ∀ x ∈ emergencyWords, x ∈ emergencyKeywords := by decide
  exact ⟨w, hsub w hw, hin⟩

theorem ne_empty_of_not_blank (m : String) (h : jsLength (jsTrim m) ≠ 0) : m ≠ "" := by
  intro hm
  subst hm
  exact h (by decide)

theorem jsTrim_ne_empty_of_not_blank (m : String) (h : jsLength (jsTrim m) ≠ 0) :
    jsTrim m ≠ "" := by
  intro hm
  rw [hm] at h
  exact h (by decide)

/-! ## The session `handleChat` saves -/

theorem userMessage_valid (m : String) (hnb : jsLength (jsTrim m) ≠ 0)
    (hlen : jsLength (jsTrim m) ≤ 2000) : (pushedMessage "user" m 0 false).valid = true := by
  have hne := jsTrim_ne_empty_of_not_blank m hnb
  have hrole : ["user", "assistant", "system"].contains "user" = true := by decide
  simp [ChatMessage.valid, pushedMessage, hne, hlen, hrole]

set_option maxRecDepth 100000 in
theorem demoResponse_valid (toLowerCase : String → String) (m : String) :
    (pushedMessage "assistant" (generateDemoResponse toLowerCase m) 50 false).valid = true := by
  unfold generateDemoResponse
  dsimp only
  split_ifs <;> decide

theorem exchangeDoc_valid (toLowerCase : String → String) (chat : Chat) (now : Time)
    (m : String) (hvalid : chat.valid = true) (hnb : jsLength (jsTrim m) ≠ 0)
    (hlen : jsLength (jsTrim m) ≤ 2000) :
    (exchangeDoc chat now m (generateDemoResponse toLowerCase m)).valid = true := by
  simp only [Chat.valid, Bool.and_eq_true] at hvalid
  simp only [Chat.valid, exchangeDoc, List.all_append, List.all_cons, List.all_nil,
    Bool.and_true, Bool.and_eq_true]
  exact ⟨hvalid.1, hvalid.2, userMessage_valid m hnb hlen, demoResponse_valid toLowerCase m⟩

theorem newChat_valid (db : ChatDb) (now : Time) (userId : Nat) (s : String) (hs : s ≠ "") :
    (newChat db now userId (some s)).valid = true ∧
    (newChat db now userId (some s)).sessionId = s := by
  simp [newChat, Chat.valid, truthy, hs]

theorem ChatDb.save_of_valid_existing (db : ChatDb) (now : Time) (c : Chat)
    (h : c.valid = true) :
    ChatDb.save db now false c = some (preSaveChat now c, db.replaceById (preSaveChat now c)) := by
  simp [ChatDb.save, h]

theorem ChatDb.save_of_valid_new (db : ChatDb) (now : Time) (c : Chat) (h : c.valid = true)
    (hfree : ∀ x ∈ db, x.sessionId ≠ c.sessionId) :
    ChatDb.save db now true c = some (preSaveChat now c, db ++ [preSaveChat now c]) := by
  have hany : db.any (fun s => s.sessionId == (preSaveChat now c).sessionId) = false := by
    rw [List.any_eq_false]
    intro x hx
    have := hfree x hx
    simpa [preSaveChat] using this
  simp [ChatDb.save, h, hany]

theorem ChatDb.save_of_taken (db : ChatDb) (now : Time) (c : Chat)
    (htaken : ∃ x ∈ db, x.sessionId = c.sessionId) : ChatDb.save db now true c = none := by
  obtain ⟨x, hx, hxs⟩ := htaken
  have hany : db.any (fun s => s.sessionId == (preSaveChat now c).sessionId) = true := by
    rw [List.any_eq_true]
    exact ⟨x, hx, by simpa [preSaveChat] using hxs⟩
  unfold ChatDb.save
  split
  · rfl
  · simp [hany]

/-- For a session id no session of the user has, `handleChat` starts a new
document. -/
theorem openSession_of_unknown (db : ChatDb) (now : Time) (userId : Nat) (s : String)
    (hs : s ≠ "") (h : ∀ c ∈ db, c.userId = userId → c.sessionId ≠ s) :
    openSession db now userId (some s) = (newChat db now userId (some s), true) := by
  have h₁ : db.find? (fun c => c.userId == userId && c.sessionId == s && c.isActive) = none := by
    rw [List.find?_eq_none]
    intro c hc
    have := h c hc
    simp only [Bool.and_eq_true, beq_iff_eq, not_and, Bool.not_eq_true]
    intro hu
    exact absurd hu.2 (this hu.1)
  have h₂ : db.find? (fun c => c.userId == userId && c.sessionId == s) = none := by
    rw [List.find?_eq_none]
    intro c hc
    have := h c hc
    simp only [Bool.and_eq_true, beq_iff_eq, not_and]
    intro hu
    exact this hu
  simp [openSession, truthy, hs, h₁, h₂]

/-- For the session id of a session of the user, the only session with that
id, `handleChat` continues that session, active or not. -/
theorem openSession_of_own (db : ChatDb) (now : Time) (userId : Nat) (s : String) (c : Chat)
    (hs : s ≠ "") (hc : c ∈ db) (hu : c.userId = userId) (hsid : c.sessionId = s)
    (huniq : ∀ x ∈ db, x.sessionId = s → x = c) :
    openSession db now userId (some s) = (c, false) := by
  have hany : ∀ x, db.find? (fun c => c.userId == userId && c.sessionId == s) = some x →
      x = c := by
    intro x hx
    have hp := List.find?_some hx
    simp only [Bool.and_eq_true, beq_iff_eq] at hp
    exact huniq x (List.mem_of_find?_eq_some hx) hp.2
  have hact : ∀ x,
      db.find? (fun c => c.userId == userId && c.sessionId == s && c.isActive) = some x →
      x = c := by
    intro x hx
    have hp := List.find?_some hx
    simp only [Bool.and_eq_true, beq_iff_eq] at hp
    exact huniq x (List.mem_of_find?_eq_some hx) hp.1.2
  have hsome : ∃ x, db.find? (fun c => c.userId == userId && c.sessionId == s) = some x := by
    cases hf : db.find? (fun c => c.userId == userId && c.sessionId == s) with
    | some x => exact ⟨x, rfl⟩
    | none =>
      rw [List.find?_eq_none] at hf
      exact absurd (by simp [hu, hsid]) (hf c hc)
  obtain ⟨x, hx⟩ := hsome
  have hxc := hany x hx
  subst hxc
  cases hf : db.find? (fun c => c.userId == userId && c.sessionId == s && c.isActive) with
  | some y =>
    have := hact y hf
    subst this
    simp [openSession, truthy, hs, hf]
  | none => simp [openSession, truthy, hs, hf, hx]

/-- The non-emergency branch of `handleChat`: the response is decided by the
save of the exchange on the session `openSession` returns. -/
theorem handleChat_of_no_emergency (toLowerCase : String → String) (db : ChatDb) (now : Time)
    (userId : Nat) (m : String) (sessionId : Option String) (hnb : jsLength (jsTrim m) ≠ 0)
    (he : isEmergency toLowerCase m = false) :
    handleChat toLowerCase db now [] userId (some m) sessionId =
      match ChatDb.save db now (openSession db now userId sessionId).2
          (exchangeDoc (openSession db now userId sessionId).1 now m
            (generateDemoResponse toLowerCase m)) with
      | none => (chatFallback, db)
      | some (saved, db₁) =>
        ({ status := 200, success := true, reply := some (generateDemoResponse toLowerCase m)
           sessionId := some saved.sessionId, tokens := some 50 }, db₁) := by
  have hne : m ≠ "" := ne_empty_of_not_blank m hnb
  have hguard : (!truthy (some m) || jsLength (jsTrim m) == 0) = false := by
    simp [truthy, hne, hnb]
  unfold handleChat
  simp only [List.isEmpty_nil, Bool.not_true, Bool.false_eq_true, if_false, hguard,
    Option.getD_some, he]

/-- C22 (amended): `handleChat` answers 400 `Validation errors` when the
validators of the route reported errors.  Otherwise, for a message that is not
blank, it counts the message as an emergency exactly when its lowercased text
contains one of the 21 entries of `emergencyKeywords`, and then answers 200
with the fixed emergency text and `isEmergency: true`.  A message that is no
emergency is answered with 200, `generateDemoResponse` of the message, the
session id of the saved session and 50 tokens exactly when the save of the
session succeeds, and with the 500 fallback, the collection left as it was,
when the save is rejected.  The save succeeds for a session id no stored
session has and for the session id of a valid session of the user (message at
most 2000 units after trimming), and is rejected for a session id only
sessions of other users have. -/
theorem handleChat_emergency_contract (toLowerCase : String → String) (db : ChatDb)
    (now : Time) (errors : List String) (userId : Nat) (m : String)
    (sessionId : Option String) (hnb : jsLength (jsTrim m) ≠ 0) :
    emergencyKeywords.length = 21 ∧
    (isEmergency toLowerCase m = true ↔
      ∃ k ∈ emergencyKeywords, k.data <:+: (toLowerCase m).data) ∧
    (errors ≠ [] →
      handleChat toLowerCase db now errors userId (some m) sessionId =
        ({ status := 400, success := false, message := some "Validation errors" }, db)) ∧
    (errors = [] → isEmergency toLowerCase m = true →
      (handleChat toLowerCase db now errors userId (some m) sessionId).1 =
        { status := 200, success := true, reply := some emergencyContent
          isEmergency := some true
          sessionId := some (if truthy sessionId then sessionId.getD "" else toString now) }) ∧
    (errors = [] → isEmergency toLowerCase m = false →
      (∀ saved db₁,
        ChatDb.save db now (openSession db now userId sessionId).2
          (exchangeDoc (openSession db now userId sessionId).1 now m
            (generateDemoResponse toLowerCase m)) = some (saved, db₁) →
        handleChat toLowerCase db now errors userId (some m) sessionId =
          ({ status := 200, success := true
             reply := some (generateDemoResponse toLowerCase m)
             sessionId := some saved.sessionId, tokens := some 50 }, db₁)) ∧
      (ChatDb.save db now (openSession db now userId sessionId).2
          (exchangeDoc (openSession db now userId sessionId).1 now m
            (generateDemoResponse toLowerCase m)) = none →
        handleChat toLowerCase db now errors userId (some m) sessionId = (chatFallback, db)) ∧
      (∀ s, sessionId = some s → s ≠ "" → jsLength (jsTrim m) ≤ 2000 →
        (∀ c ∈ db, c.sessionId ≠ s) →
        (handleChat toLowerCase db now errors userId (some m) sessionId).1 =
          { status := 200, success := true
            reply := some (generateDemoResponse toLowerCase m)
            sessionId := some s, tokens := some 50 }) ∧
      (∀ s c, sessionId = some s → s ≠ "" → jsLength (jsTrim m) ≤ 2000 →
        c ∈ db → c.userId = userId → c.sessionId = s → c.valid = true →
        (∀ x ∈ db, x.sessionId = s → x = c) →
        (handleChat toLowerCase db now errors userId (some m) sessionId).1 =
          { status := 200, success := true
            reply := some (generateDemoResponse toLowerCase m)
            sessionId := some s, tokens := some 50 }) ∧
      (∀ s, sessionId = some s → s ≠ "" →
        (∀ c ∈ db, c.userId = userId → c.sessionId ≠ s) → (∃ c ∈ db, c.sessionId = s) →
        handleChat toLowerCase db now errors userId (some m) sessionId =
          (chatFallback, db))) := by
  have hne : m ≠ "" := ne_empty_of_not_blank m hnb
  have hguard : (!truthy (some m) || jsLength (jsTrim m) == 0) = false := by
    simp [truthy, hne, hnb]
  refine ⟨rfl, isEmergency_iff toLowerCase m, ?_, ?_, ?_⟩
  · intro herr
    have hempty : errors.isEmpty = false := by
      cases errors with
      | nil => exact absurd rfl herr
      | cons e es => rfl
    unfold handleChat
    simp only [hempty, Bool.not_false, if_true]
  · intro herr he
    subst herr
    unfold handleChat
    simp only [List.isEmpty_nil, Bool.not_true, Bool.false_eq_true, if_false, hguard,
      Option.getD_some, he, if_true]
  · intro herr he
    subst herr
    have hbranch := handleChat_of_no_emergency toLowerCase db now userId m sessionId hnb he
    refine ⟨?_, ?_, ?_, ?_, ?_⟩
    · intro saved db₁ hsave
      rw [hbranch, hsave]
    · intro hsave
      rw [hbranch, hsave]
    · intro s hsome hs hlen hfree
      subst hsome
      have hopen := openSession_of_unknown db now userId s hs (fun c hc _ => hfree c hc)
      have hnew := newChat_valid db now userId s hs
      have hvalid := exchangeDoc_valid toLowerCase (newChat db now userId (some s)) now m
        hnew.1 hnb hlen
      have hsave := ChatDb.save_of_valid_new db now _ hvalid (by
        intro x hx
        have := hfree x hx
        simpa [exchangeDoc, hnew.2] using this)
      rw [hbranch, hopen]
      simp only [hsave]
      simp [preSaveChat, exchangeDoc, hnew.2]
    · intro s c hsome hs hlen hc hu hsid hcv huniq
      subst hsome
      have hopen := openSession_of_own db now userId s c hs hc hu hsid huniq
      have hvalid := exchangeDoc_valid toLowerCase c now m hcv hnb hlen
      have hsave := ChatDb.save_of_valid_existing db now _ hvalid
      rw [hbranch, hopen]
      simp only [hsave]
      simp [preSaveChat, exchangeDoc, hsid]
    · intro s hsome hs hnone htaken
      subst hsome
      have hopen := openSession_of_unknown db now userId s hs hnone
      have hnew := newChat_valid db now userId s hs
      have hsave := ChatDb.save_of_taken db now
        (exchangeDoc (newChat db now userId (some s)) now m
          (generateDemoResponse toLowerCase m)) (by
        obtain ⟨x, hx, hxs⟩ := htaken
        exact ⟨x, hx, by simpa [exchangeDoc, hnew.2] using hxs⟩)
      rw [hbranch, hopen]
      simp only [hsave]

set_option maxRecDepth 100000 in
/-- C22 (amended) at sample messages: `My dog is bleeding` gets the emergency
text although it names a dog; `hello there` in a new session `s1` gets the
demo response, under the session id `s1` and with 50 tokens; the same message
of user 2 under the session id of user 1 gets the 500 fallback; a request the
validators rejected gets 400. -/
theorem handleChat_emergency_contract_witness :
    (handleChat jsToLowerCase [] 1000 [] 1 (some "My dog is bleeding") (some "s1")).1 =
      { status := 200, success := true, reply := some emergencyContent
        isEmergency := some true, sessionId := some "s1" } ∧
    (handleChat jsToLowerCase [] 1000 [] 1 (some "hello there") (some "s1")).1 =
      { status := 200, success := true
        reply := some (generateDemoResponse jsToLowerCase "hello there")
        sessionId := some "s1", tokens := some 50 } ∧
    handleChat jsToLowerCase chatStarted 2000 [] 2 (some "hello there") (some "s1") =
      (chatFallback, chatStarted) ∧
    handleChat jsToLowerCase [] 1000 ["Session ID must be between 1 and 100 characters"] 1 (some "hello there")
        none =
      ({ status := 400, success := false, message := some "Validation errors" }, []) :=
  ⟨(handleChat_emergency_contract jsToLowerCase [] 1000 [] 1 "My dog is bleeding" (some "s1")
      (by decide)).2.2.2.1 rfl (by decide),
    ((handleChat_emergency_contract jsToLowerCase [] 1000 [] 1 "hello there" (some "s1")
      (by decide)).2.2.2.2 rfl (by decide)).2.2.1 "s1" rfl (by decide) (by decide)
      (by decide),
    ((handleChat_emergency_contract jsToLowerCase chatStarted 2000 [] 2 "hello there"
      (some "s1") (by decide)).2.2.2.2 rfl (by decide)).2.2.2.2 "s1" rfl (by decide)
      (by decide) (by decide),
    (handleChat_emergency_contract jsToLowerCase [] 1000 ["Session ID must be between 1 and 100 characters"] 1
      "hello there" none (by decide)).2.2.1 (by decide)⟩

/-! ## The counters of a chat session -/

theorem preSaveChat_countersAgree (now : Time) (c : Chat) :
    (preSaveChat now c).countersAgree :=
  ⟨rfl, rfl, rfl⟩

theorem ChatDb.mem_replaceById {db : ChatDb} {c x : Chat} (h : x ∈ db.replaceById c) :
    x ∈ db ∨ x = c := by
  induction db with
  | nil => simp [ChatDb.replaceById] at h
  | cons s rest ih =>
    unfold ChatDb.replaceById at h
    split at h
    · rcases List.mem_cons.mp h with h | h
      · exact Or.inr h
      · exact Or.inl (List.mem_cons_of_mem _ h)
    · rcases List.mem_cons.mp h with h | h
      · exact Or.inl (h ▸ List.mem_cons_self _ _)
      · rcases ih h with h | h
        · exact Or.inl (List.mem_cons_of_mem _ h)
        · exact Or.inr h

theorem ChatDb.mem_deactivateFirst {p : Chat → Bool} {db : ChatDb} {x : Chat}
    (h : x ∈ ChatDb.deactivateFirst p db) :
    ∃ y ∈ db, x = y ∨ x = { y with isActive := false } := by
  induction db with
  | nil => simp [ChatDb.deactivateFirst] at h
  | cons s rest ih =>
    unfold ChatDb.deactivateFirst at h
    split at h
    · rcases List.mem_cons.mp h with h | h
      · exact ⟨s, List.mem_cons_self _ _, Or.inr h⟩
      · exact ⟨x, List.mem_cons_of_mem _ h, Or.inl rfl⟩
    · rcases List.mem_cons.mp h with h | h
      · exact ⟨s, List.mem_cons_self _ _, Or.inl h⟩
      · obtain ⟨y, hy, hxy⟩ := ih h
        exact ⟨y, List.mem_cons_of_mem _ hy, hxy⟩

/-- A `save` that succeeds returns the document as the hook left it and keeps
the counters of every stored chat in agreement with its messages. -/
theorem ChatDb.save_countersAgree {db db₁ : ChatDb} {now : Time} {isNew : Bool}
    {c saved : Chat} (h : ChatDb.save db now isNew c = some (saved, db₁)) :
    saved = preSaveChat now c ∧
    ((∀ x ∈ db, x.countersAgree) → ∀ x ∈ db₁, x.countersAgree) := by
  unfold ChatDb.save at h
  split at h
  · exact absurd h (by simp)
  · dsimp only at h
    split at h
    · split at h
      · exact absurd h (by simp)
      · simp only [Option.some.injEq, Prod.mk.injEq] at h
        obtain ⟨h₁, h₂⟩ := h
        subst h₁ h₂
        refine ⟨rfl, fun hall x hx => ?_⟩
        rcases List.mem_append.mp hx with hx | hx
        · exact hall x hx
        · rw [List.mem_singleton.mp hx]
          exact preSaveChat_countersAgree now c
    · simp only [Option.some.injEq, Prod.mk.injEq] at h
      obtain ⟨h₁, h₂⟩ := h
      subst h₁ h₂
      refine ⟨rfl, fun hall x hx => ?_⟩
      rcases ChatDb.mem_replaceById hx with hx | hx
      · exact hall x hx
      · rw [hx]
        exact preSaveChat_countersAgree now c

theorem saveChatMessage_countersAgree (db : ChatDb) (now : Time) (userId : Nat)
    (sessionId : Option String) (userMessage aiResponse : String) (isEmergency : Bool)
    (hall : ∀ x ∈ db, x.countersAgree) :
    ∀ x ∈ saveChatMessage db now userId sessionId userMessage aiResponse isEmergency,
      x.countersAgree := by
  unfold saveChatMessage
  dsimp only
  split
  · exact hall
  · next saved db₁ hsave => exact (ChatDb.save_countersAgree hsave).2 hall

theorem handleChat_countersAgree (toLowerCase : String → String) (db : ChatDb) (now : Time)
    (errors : List String) (userId : Nat) (message sessionId : Option String)
    (hall : ∀ x ∈ db, x.countersAgree) :
    ∀ x ∈ (handleChat toLowerCase db now errors userId message sessionId).2,
      x.countersAgree := by
  unfold handleChat
  split
  · exact hall
  · split
    · exact hall
    · dsimp only
      split
      · exact saveChatMessage_countersAgree db now userId sessionId _ _ _ hall
      · split
        · exact hall
        · next saved db₁ hsave => exact (ChatDb.save_countersAgree hsave).2 hall

theorem clearChatSession_countersAgree (db : ChatDb) (userId : Nat) (sessionId : String)
    (hall : ∀ x ∈ db, x.countersAgree) :
    ∀ x ∈ (clearChatSession db userId sessionId).2, x.countersAgree := by
  unfold clearChatSession
  split
  · exact hall
  · intro x hx
    obtain ⟨y, hy, hxy⟩ := ChatDb.mem_deactivateFirst hx
    rcases hxy with hxy | hxy
    · exact hxy ▸ hall y hy
    · rw [hxy]
      exact hall y hy

/-- C24: the pre-save hook leaves `totalMessages` equal to the number of
messages, `totalTokens` equal to the sum of their tokens (a missing value
counting as 0) and `emergencyFlags` equal to the number of messages flagged as
emergencies, whatever these fields held before; every `save` that succeeds
stores the document as the hook left it; and `handleChat`, `saveChatMessage`
and `clearChatSession` keep the three counters of every stored chat in
agreement with its messages. -/
theorem chat_counters_after_save (db : ChatDb) (now : Time) :
    (∀ c : Chat, (preSaveChat now c).countersAgree) ∧
    (∀ (isNew : Bool) (c saved : Chat) (db₁ : ChatDb),
      ChatDb.save db now isNew c = some (saved, db₁) →
        saved = preSaveChat now c ∧ saved.countersAgree) ∧
    ((∀ x ∈ db, x.countersAgree) →
      (∀ (toLowerCase : String → String) (errors : List String) (userId : Nat)
          (message sessionId : Option String),
        ∀ x ∈ (handleChat toLowerCase db now errors userId message sessionId).2,
          x.countersAgree) ∧
      (∀ (userId : Nat) (sessionId : Option String) (userMessage aiResponse : String)
          (isEmergency : Bool),
        ∀ x ∈ saveChatMessage db now userId sessionId userMessage aiResponse isEmergency,
          x.countersAgree) ∧
      (∀ (userId : Nat) (sessionId : String),
        ∀ x ∈ (clearChatSession db userId sessionId).2, x.countersAgree)) := by
  refine ⟨preSaveChat_countersAgree now, ?_, ?_⟩
  · intro isNew c saved db₁ h
    have := (ChatDb.save_countersAgree h).1
    exact ⟨this, this ▸ preSaveChat_countersAgree now c⟩
  · intro hall
    exact ⟨fun toLowerCase errors userId message sessionId =>
        handleChat_countersAgree toLowerCase db now errors userId message sessionId hall,
      fun userId sessionId userMessage aiResponse isEmergency =>
        saveChatMessage_countersAgree db now userId sessionId userMessage aiResponse
          isEmergency hall,
      fun userId sessionId => clearChatSession_countersAgree db userId sessionId hall⟩

set_option maxRecDepth 100000 in
/-- C24 at the sample session: after the first exchange the stored chat counts 2
messages and 50 tokens (not the 100 that `totalTokens += 50` and the hook
would add up to) and no emergency, and its counters agree with its messages. -/
theorem chat_counters_after_save_witness :
    chatStarted.map
        (fun c => (c.metadata.totalMessages, c.metadata.totalTokens, c.metadata.emergencyFlags)) =
      [(2, 50, 0)] ∧
    ∀ x ∈ (handleChat jsToLowerCase [] 1000 [] 1 (some "hello there") (some "s1")).2,
      x.countersAgree :=
  ⟨by decide,
    ((chat_counters_after_save [] 1000).2.2 (fun x hx => absurd hx (List.not_mem_nil x))).1
      jsToLowerCase [] 1 (some "hello there") (some "s1")⟩

end PetConnect
